import Mathlib

/-!
Verification of the `tokenmeter` usage/budget/aggregation engine.

Shallow embedding conventions:
- Python `Decimal` is modelled as `ℚ` (the repository performs only exact
  decimal arithmetic: additions, multiplications, and divisions by powers
  of ten; context-precision rounding never triggers for the quantities
  involved, so rational arithmetic is the faithful model of "decimal,
  never binary float").
- Python `int` is modelled as `ℤ` (token counts may be negative per the
  calculator's guard).
- Python `dict` is modelled as an association list with insert-or-replace
  (`alInsert`) and first-match lookup (`List.lookup`).
- `datetime.datetime` is modelled as `PyDateTime` (proleptic Gregorian
  civil fields); `date.toordinal`, `weekday`, and `timedelta(days=n)`
  subtraction are modelled after CPython's `_ymd2ord` and day-stepping.
- Fallible code returns `Except TmError`.
-/

namespace Tokenmeter

/-- Insert-or-replace into an association list, embedding Python
`dict.__setitem__`: an existing key keeps its position with the new value,
a fresh key is appended. -/
def alInsert {β : Type} : List (String × β) → String → β → List (String × β)
  | [], k, v => [(k, v)]
  | (k', v') :: rest, k, v =>
      if k' = k then (k, v) :: rest else (k', v') :: alInsert rest k v

/-- Embeds `tokenmeter._types.ModelPricing`: price per million tokens for a
specific model; optional categories are unbilled when `none`. -/
structure ModelPricing where
  model_id : String
  provider : String
  input_per_mtok : ℚ
  output_per_mtok : ℚ
  cache_read_per_mtok : Option ℚ := none
  cache_write_per_mtok : Option ℚ := none
  batch_input_per_mtok : Option ℚ := none
  batch_output_per_mtok : Option ℚ := none
deriving DecidableEq, Repr

/-- Embeds `tokenmeter._types.BudgetConfig`. -/
structure BudgetConfig where
  limit : ℚ
  period : String
  scope : String := "global"
  action : String := "warn"
deriving DecidableEq, Repr

/-- Embeds `tokenmeter._types.BudgetStatus` (`utilization`, a Python
`float`, is modelled as the exact ratio). -/
structure BudgetStatus where
  config : BudgetConfig
  spent : ℚ
  remaining : ℚ
  utilization : ℚ
  is_exceeded : Bool
deriving DecidableEq, Repr

/-- Error taxonomy of the subsystem: `UnknownModelError`, the `ValueError`
raised by provider detection (the spec's NoProviderMatch), the
`ValueError` of `_period_start`, and `BudgetExceededError`. -/
inductive TmError where
  | unknownModel (model : String)
  | noProviderMatch
  | valueError (msg : String)
  | budgetExceeded (status : BudgetStatus)
deriving DecidableEq, Repr

/-- Embeds `tokenmeter.pricing.PricingRegistry`'s state: the `_models` and
`_aliases` dicts. -/
structure PricingRegistry where
  models : List (String × ModelPricing)
  aliases : List (String × String)
deriving DecidableEq, Repr

/-- Equality on `Except` values is decidable componentwise. -/
instance {ε α : Type} [DecidableEq ε] [DecidableEq α] : DecidableEq (Except ε α) := by
  intro a b
  cases a <;> cases b
  case error.error e e' =>
    exact if h : e = e' then .isTrue (by rw [h]) else
      .isFalse (fun hc => h (Except.error.injEq .. ▸ hc))
  case error.ok e a' => exact .isFalse (fun hc => Except.noConfusion hc)
  case ok.error a' e => exact .isFalse (fun hc => Except.noConfusion hc)
  case ok.ok x y =>
    exact if h : x = y then .isTrue (by rw [h]) else
      .isFalse (fun hc => h (Except.ok.injEq .. ▸ hc))

/-- Character-list model of Python's `str.lower()` (ASCII level). -/
def pyLower (s : String) : String := String.mk (s.data.map Char.toLower)

/-- Character-list model of Python's `str.strip()`: remove leading and
trailing whitespace. -/
def pyStrip (s : String) : String :=
  String.mk (((s.data.dropWhile Char.isWhitespace).reverse.dropWhile
    Char.isWhitespace).reverse)

/-- Embeds the normalization inside `PricingRegistry._resolve`:
`model.lower().strip()` (ASCII-level model of Python's `str.lower` and
`str.strip`). -/
def pyNormalize (s : String) : String := pyStrip (pyLower s)

namespace PricingRegistry

/-- Embeds `PricingRegistry._resolve`: normalize, then alias lookup with
identity fallback. -/
def resolve (R : PricingRegistry) (model : String) : String :=
  let normalized := pyNormalize model
  (R.aliases.lookup normalized).getD normalized

/-- Embeds `PricingRegistry.get`: raises `UnknownModelError` when the
resolved id has no entry. -/
def get (R : PricingRegistry) (model : String) :
    Except TmError ModelPricing :=
  match R.models.lookup (R.resolve model) with
  | some p => .ok p
  | none => .error (.unknownModel model)

/-- Embeds `PricingRegistry.register`: stores under `pricing.model_id`
verbatim (no normalization), overwriting an existing entry. -/
def register (R : PricingRegistry) (pricing : ModelPricing) : PricingRegistry :=
  { R with models := alInsert R.models pricing.model_id pricing }

/-- Embeds `PricingRegistry.add_alias`. -/
def add_alias (R : PricingRegistry) (alias' : String) (model_id : String) :
    PricingRegistry :=
  { R with aliases := alInsert R.aliases alias' model_id }

end PricingRegistry

/-- Embeds `tokenmeter.pricing._data.ANTHROPIC_PRICING` (entries in table
order, each via `_dict_to_pricing` with provider `"anthropic"`;
`cache_write_5m` feeds `cache_write_per_mtok`). -/
def anthropicModels : List (String × ModelPricing) :=
  [ ("claude-opus-4-6",
     { model_id := "claude-opus-4-6", provider := "anthropic",
       input_per_mtok := 5, output_per_mtok := 25,
       cache_read_per_mtok := some 0.50, cache_write_per_mtok := some 6.25,
       batch_input_per_mtok := some 2.50, batch_output_per_mtok := some 12.50 }),
    ("claude-opus-4-5",
     { model_id := "claude-opus-4-5", provider := "anthropic",
       input_per_mtok := 5, output_per_mtok := 25,
       cache_read_per_mtok := some 0.50, cache_write_per_mtok := some 6.25,
       batch_input_per_mtok := some 2.50, batch_output_per_mtok := some 12.50 }),
    ("claude-opus-4-1",
     { model_id := "claude-opus-4-1", provider := "anthropic",
       input_per_mtok := 15, output_per_mtok := 75,
       cache_read_per_mtok := some 1.50, cache_write_per_mtok := some 18.75,
       batch_input_per_mtok := some 7.50, batch_output_per_mtok := some 37.50 }),
    ("claude-opus-4",
     { model_id := "claude-opus-4", provider := "anthropic",
       input_per_mtok := 15, output_per_mtok := 75,
       cache_read_per_mtok := some 1.50, cache_write_per_mtok := some 18.75,
       batch_input_per_mtok := some 7.50, batch_output_per_mtok := some 37.50 }),
    ("claude-sonnet-4-5",
     { model_id := "claude-sonnet-4-5", provider := "anthropic",
       input_per_mtok := 3, output_per_mtok := 15,
       cache_read_per_mtok := some 0.30, cache_write_per_mtok := some 3.75,
       batch_input_per_mtok := some 1.50, batch_output_per_mtok := some 7.50 }),
    ("claude-sonnet-4",
     { model_id := "claude-sonnet-4", provider := "anthropic",
       input_per_mtok := 3, output_per_mtok := 15,
       cache_read_per_mtok := some 0.30, cache_write_per_mtok := some 3.75,
       batch_input_per_mtok := some 1.50, batch_output_per_mtok := some 7.50 }),
    ("claude-haiku-4-5",
     { model_id := "claude-haiku-4-5", provider := "anthropic",
       input_per_mtok := 1, output_per_mtok := 5,
       cache_read_per_mtok := some 0.10, cache_write_per_mtok := some 1.25,
       batch_input_per_mtok := some 0.50, batch_output_per_mtok := some 2.50 }),
    ("claude-haiku-3-5",
     { model_id := "claude-haiku-3-5", provider := "anthropic",
       input_per_mtok := 0.80, output_per_mtok := 4,
       cache_read_per_mtok := some 0.08, cache_write_per_mtok := some 1,
       batch_input_per_mtok := some 0.40, batch_output_per_mtok := some 2 }),
    ("claude-haiku-3",
     { model_id := "claude-haiku-3", provider := "anthropic",
       input_per_mtok := 0.25, output_per_mtok := 1.25,
       cache_read_per_mtok := some 0.03, cache_write_per_mtok := some 0.30,
       batch_input_per_mtok := some 0.125, batch_output_per_mtok := some 0.625 }) ]

/-- Embeds `tokenmeter.pricing._data.OPENAI_PRICING` (no cache-write or
batch prices configured for any OpenAI model). -/
def openaiModels : List (String × ModelPricing) :=
  [ ("gpt-5.1",
     { model_id := "gpt-5.1", provider := "openai",
       input_per_mtok := 1.25, output_per_mtok := 10,
       cache_read_per_mtok := some 0.125 }),
    ("gpt-5.1-codex-mini",
     { model_id := "gpt-5.1-codex-mini", provider := "openai",
       input_per_mtok := 0.25, output_per_mtok := 2,
       cache_read_per_mtok := some 0.025 }),
    ("gpt-5",
     { model_id := "gpt-5", provider := "openai",
       input_per_mtok := 1.25, output_per_mtok := 10,
       cache_read_per_mtok := some 0.125 }),
    ("gpt-5-nano",
     { model_id := "gpt-5-nano", provider := "openai",
       input_per_mtok := 0.05, output_per_mtok := 0.40,
       cache_read_per_mtok := some 0.005 }),
    ("gpt-5-mini",
     { model_id := "gpt-5-mini", provider := "openai",
       input_per_mtok := 0.25, output_per_mtok := 2,
       cache_read_per_mtok := some 0.025 }),
    ("gpt-4.1",
     { model_id := "gpt-4.1", provider := "openai",
       input_per_mtok := 2, output_per_mtok := 8,
       cache_read_per_mtok := some 0.50 }),
    ("gpt-4.1-mini",
     { model_id := "gpt-4.1-mini", provider := "openai",
       input_per_mtok := 0.40, output_per_mtok := 1.60,
       cache_read_per_mtok := some 0.10 }),
    ("gpt-4.1-nano",
     { model_id := "gpt-4.1-nano", provider := "openai",
       input_per_mtok := 0.10, output_per_mtok := 0.40,
       cache_read_per_mtok := some 0.025 }),
    ("gpt-4o",
     { model_id := "gpt-4o", provider := "openai",
       input_per_mtok := 2.50, output_per_mtok := 10,
       cache_read_per_mtok := some 1.25 }),
    ("gpt-4o-mini",
     { model_id := "gpt-4o-mini", provider := "openai",
       input_per_mtok := 0.15, output_per_mtok := 0.60,
       cache_read_per_mtok := some 0.075 }),
    ("o3",
     { model_id := "o3", provider := "openai",
       input_per_mtok := 2, output_per_mtok := 8,
       cache_read_per_mtok := some 0.50 }),
    ("o3-mini",
     { model_id := "o3-mini", provider := "openai",
       input_per_mtok := 1.10, output_per_mtok := 4.40,
       cache_read_per_mtok := some 0.55 }),
    ("o4-mini",
     { model_id := "o4-mini", provider := "openai",
       input_per_mtok := 1.10, output_per_mtok := 4.40,
       cache_read_per_mtok := some 0.275 }),
    ("o1",
     { model_id := "o1", provider := "openai",
       input_per_mtok := 15, output_per_mtok := 60,
       cache_read_per_mtok := some 7.50 }) ]

/-- Embeds `ANTHROPIC_ALIASES` followed by `OPENAI_ALIASES` (load order of
`_load_builtin`). -/
def builtinAliases : List (String × String) :=
  [ ("claude-opus-4-6-20250814", "claude-opus-4-6"),
    ("claude-opus-4-5-20250520", "claude-opus-4-5"),
    ("claude-sonnet-4-5-20250929", "claude-sonnet-4-5"),
    ("claude-sonnet-4-20250514", "claude-sonnet-4"),
    ("claude-haiku-4-5-20251001", "claude-haiku-4-5"),
    ("claude-3-5-haiku-20241022", "claude-haiku-3-5"),
    ("claude-3-haiku-20240307", "claude-haiku-3"),
    ("claude-3-opus-20240229", "claude-opus-4"),
    ("gpt-4o-2024-08-06", "gpt-4o"),
    ("gpt-4o-2024-11-20", "gpt-4o"),
    ("gpt-4o-mini-2024-07-18", "gpt-4o-mini"),
    ("chatgpt-4o-latest", "gpt-4o") ]

/-- A fresh `PricingRegistry()` after `_load_builtin`. -/
def defaultRegistry : PricingRegistry :=
  { models := anthropicModels ++ openaiModels, aliases := builtinAliases }

/-- Embeds `tokenmeter.cost._tokens_to_cost`:
zero or negative tokens, or an unconfigured price, contribute exactly 0;
otherwise `(tokens / 1_000_000) * price_per_mtok`. -/
def tokensToCost (tokens : ℤ) (price_per_mtok : Option ℚ) : ℚ :=
  match price_per_mtok with
  | none => 0
  | some p => if tokens ≤ 0 then 0 else ((tokens : ℚ) / 1000000) * p

/-- Embeds `CostCalculator._compute`: running decimal sum over the four
token categories. -/
def CostCalculator.compute (pricing : ModelPricing)
    (input_tokens output_tokens cache_read_tokens cache_write_tokens : ℤ) : ℚ :=
  0 + tokensToCost input_tokens (some pricing.input_per_mtok)
    + tokensToCost output_tokens (some pricing.output_per_mtok)
    + tokensToCost cache_read_tokens pricing.cache_read_per_mtok
    + tokensToCost cache_write_tokens pricing.cache_write_per_mtok

/-- Embeds `CostCalculator.calculate`: pricing lookup (raising
`UnknownModelError`) then `_compute`. -/
def CostCalculator.calculate (R : PricingRegistry) (model : String)
    (input_tokens output_tokens : ℤ)
    (cache_read_tokens : ℤ := 0) (cache_write_tokens : ℤ := 0) :
    Except TmError ℚ := do
  let pricing ← R.get model
  return CostCalculator.compute pricing input_tokens output_tokens
    cache_read_tokens cache_write_tokens

/-- The dict returned by `CostCalculator.calculate_detailed`. -/
structure DetailedCosts where
  input_cost : ℚ
  output_cost : ℚ
  cache_read_cost : ℚ
  cache_write_cost : ℚ
  total_cost : ℚ
deriving DecidableEq, Repr

/-- Embeds `CostCalculator.calculate_detailed`: itemized category costs and
their sum. -/
def CostCalculator.calculate_detailed (R : PricingRegistry)
    (model : String) (input_tokens output_tokens : ℤ)
    (cache_read_tokens : ℤ := 0) (cache_write_tokens : ℤ := 0) :
    Except TmError DetailedCosts := do
  let pricing ← R.get model
  let input_cost := tokensToCost input_tokens (some pricing.input_per_mtok)
  let output_cost := tokensToCost output_tokens (some pricing.output_per_mtok)
  let cache_read_cost := tokensToCost cache_read_tokens pricing.cache_read_per_mtok
  let cache_write_cost := tokensToCost cache_write_tokens pricing.cache_write_per_mtok
  return { input_cost, output_cost, cache_read_cost, cache_write_cost,
           total_cost := input_cost + output_cost + cache_read_cost + cache_write_cost }

/-- Civil-field model of `datetime.datetime` (proleptic Gregorian
calendar, local wall-clock, no timezone — the code never attaches one). -/
structure PyDateTime where
  year : ℕ
  month : ℕ
  day : ℕ
  hour : ℕ := 0
  minute : ℕ := 0
  second : ℕ := 0
  microsecond : ℕ := 0
deriving DecidableEq, Repr

/-- Lexicographic `<=` on equal-length tuples of naturals (Python tuple
comparison, used by CPython's datetime `_cmp`). -/
def lexLe : List ℕ → List ℕ → Bool
  | [], _ => true
  | _ :: _, [] => false
  | x :: xs, y :: ys => if x ≠ y then x < y else lexLe xs ys

/-- Lexicographic `<` on equal-length tuples of naturals. -/
def lexLt : List ℕ → List ℕ → Bool
  | _, [] => false
  | [], _ :: _ => true
  | x :: xs, y :: ys => if x ≠ y then x < y else lexLt xs ys

namespace PyDateTime

/-- The comparison tuple of CPython's datetime `_cmp`. -/
def tuple (d : PyDateTime) : List ℕ :=
  [d.year, d.month, d.day, d.hour, d.minute, d.second, d.microsecond]

/-- CPython compares datetimes as field tuples; `ble a b` embeds `a <= b`. -/
def ble (a b : PyDateTime) : Bool := lexLe a.tuple b.tuple

/-- Embeds `a < b` on datetimes (strict field-tuple order). -/
def blt (a b : PyDateTime) : Bool := lexLt a.tuple b.tuple

end PyDateTime

/-- Embeds `tokenmeter._types.UsageRecord`.

Modelled from the spec: the snapshot's dataclass omits the
resource-estimate field (`water_ml`) that `tracker.py` sets, `cli.py`
reads and the spec's data model names ("a resource-estimate value"); it
is included here with the default 0 that `tests/test_storage` asserts. -/
structure UsageRecord where
  id : String
  timestamp : PyDateTime
  provider : String
  model : String
  input_tokens : ℤ
  output_tokens : ℤ
  input_cost : ℚ
  output_cost : ℚ
  total_cost : ℚ
  cache_read_tokens : ℤ := 0
  cache_write_tokens : ℤ := 0
  session_id : Option String := none
  user_id : Option String := none
  tags : List (String × String) := []
  is_estimate : Bool := false
  water_ml : ℚ := 0
deriving DecidableEq, Repr

/-- The dict returned by `Provider.extract_usage`: cache keys may be
absent (`none`); the tracker reads them with `.get(key, 0)`. -/
structure Usage where
  input_tokens : ℤ
  output_tokens : ℤ
  cache_read_tokens : Option ℤ := none
  cache_write_tokens : Option ℤ := none

/-- Capability set of `tokenmeter.providers._base.Provider`, abstracted
over the raw response type `ρ` (responses are objects of external
provider libraries). -/
structure Provider (ρ : Type) where
  name : String
  extract_usage : ρ → Usage
  extract_model : ρ → String
  matches_response : ρ → Bool

/-- Embeds `ProviderRegistry.detect`: linear scan over the registered
providers (dict insertion order), raising the no-provider-match
`ValueError` when none matches. -/
def detect {ρ : Type} (providers : List (String × Provider ρ)) (response : ρ) :
    Except TmError (Provider ρ) :=
  match providers with
  | [] => .error .noProviderMatch
  | (_, p) :: rest =>
      if p.matches_response response then .ok p else detect rest response

/-- Does `hay` start with `needle`? (helper for substring search). -/
def leadMatch : List Char → List Char → Bool
  | [], _ => true
  | _ :: _, [] => false
  | a :: as, b :: bs => a == b && leadMatch as bs

/-- Is `needle` a contiguous subsequence of `hay`? -/
def subSeqAt (needle : List Char) : List Char → Bool
  | [] => needle.isEmpty
  | c :: rest => leadMatch needle (c :: rest) || subSeqAt needle rest

/-- Embeds Python's `needle in hay` on strings. -/
def strContainsSub (hay needle : String) : Bool := subSeqAt needle.data hay.data

/-- Embeds `tokenmeter.tracker._infer_provider`: substring matching on the
lowercased model name, defaulting to the `"unknown"` sentinel. -/
def inferProvider (model : String) : String :=
  let model_lower := pyLower model
  if strContainsSub model_lower "claude" then "anthropic"
  else if strContainsSub model_lower "gpt" || strContainsSub model_lower "o1"
      || strContainsSub model_lower "o3" || strContainsSub model_lower "o4" then
    "openai"
  else "unknown"

/-- Embeds Python's `a or b` for an optional string (`None` and the empty
string are falsy). -/
def pyOr (a : Option String) (b : String) : String :=
  match a with
  | none => b
  | some s => if s = "" then b else s

/-- Embeds `UsageTracker.record`. The tracker's collaborators are passed
explicitly: provider registry, pricing registry, the optional water
calculator (as the function `self._water.calculate` when configured), the
tracker session id, and the record-store state (the default
`MemoryStorage` list). The nondeterministic effects `uuid.uuid4()` and
`datetime.now()` are passed as the `freshId` and `now` parameters. -/
def UsageTracker.record {ρ : Type} (providers : List (String × Provider ρ))
    (R : PricingRegistry) (water : Option (String → ℤ → ℤ → ℤ → ℤ → ℚ))
    (trackerSession : String) (storage : List UsageRecord) (response : ρ)
    (user_id : Option String) (session_id : Option String)
    (tags : List (String × String)) (freshId : String) (now : PyDateTime) :
    Except TmError (UsageRecord × List UsageRecord) := do
  let provider ← detect providers response
  let usage := provider.extract_usage response
  let model := provider.extract_model response
  let input_toks := usage.input_tokens
  let output_toks := usage.output_tokens
  let cache_read_toks := usage.cache_read_tokens.getD 0
  let cache_write_toks := usage.cache_write_tokens.getD 0
  let costs ← CostCalculator.calculate_detailed R model input_toks output_toks
    cache_read_toks cache_write_toks
  let water_ml : ℚ :=
    match water with
    | none => 0
    | some w => w model input_toks output_toks cache_read_toks cache_write_toks
  let record : UsageRecord :=
    { id := freshId, timestamp := now, provider := provider.name, model := model,
      input_tokens := input_toks, output_tokens := output_toks,
      cache_read_tokens := cache_read_toks, cache_write_tokens := cache_write_toks,
      input_cost := costs.input_cost, output_cost := costs.output_cost,
      total_cost := costs.total_cost,
      session_id := some (pyOr session_id trackerSession),
      user_id := user_id, tags := tags, water_ml := water_ml }
  return (record, storage ++ [record])

/-- Embeds `UsageTracker.record_manual`: same assembly path, skipping
detection; provider defaults to `_infer_provider`; `is_estimate` is
caller-supplied (default `false`). -/
def UsageTracker.record_manual (R : PricingRegistry)
    (water : Option (String → ℤ → ℤ → ℤ → ℤ → ℚ))
    (trackerSession : String) (storage : List UsageRecord)
    (model : String) (input_tokens output_tokens : ℤ)
    (provider : Option String) (cache_read_tokens cache_write_tokens : ℤ)
    (user_id : Option String) (session_id : Option String)
    (is_estimate : Bool) (tags : List (String × String))
    (freshId : String) (now : PyDateTime) :
    Except TmError (UsageRecord × List UsageRecord) := do
  let providerName :=
    match provider with
    | none => inferProvider model
    | some p => p
  let costs ← CostCalculator.calculate_detailed R model input_tokens output_tokens
    cache_read_tokens cache_write_tokens
  let water_ml : ℚ :=
    match water with
    | none => 0
    | some w => w model input_tokens output_tokens cache_read_tokens cache_write_tokens
  let record : UsageRecord :=
    { id := freshId, timestamp := now, provider := providerName, model := model,
      input_tokens := input_tokens, output_tokens := output_tokens,
      cache_read_tokens := cache_read_tokens, cache_write_tokens := cache_write_tokens,
      input_cost := costs.input_cost, output_cost := costs.output_cost,
      total_cost := costs.total_cost,
      session_id := some (pyOr session_id trackerSession),
      user_id := user_id, tags := tags, is_estimate := is_estimate,
      water_ml := water_ml }
  return (record, storage ++ [record])

/-- The record both tracker paths assemble, written out explicitly: id
and timestamp as generated, costs as computed by `calculate_detailed`,
total cost the sum of all four category costs. -/
def assemble (freshId : String) (now : PyDateTime) (providerName model : String)
    (it ot crt cwt : ℤ) (p : ModelPricing) (session : String)
    (user_id : Option String) (tags : List (String × String)) (est : Bool)
    (wml : ℚ) : UsageRecord :=
  { id := freshId, timestamp := now, provider := providerName, model := model,
    input_tokens := it, output_tokens := ot,
    cache_read_tokens := crt, cache_write_tokens := cwt,
    input_cost := tokensToCost it (some p.input_per_mtok),
    output_cost := tokensToCost ot (some p.output_per_mtok),
    total_cost := tokensToCost it (some p.input_per_mtok)
      + tokensToCost ot (some p.output_per_mtok)
      + tokensToCost crt p.cache_read_per_mtok
      + tokensToCost cwt p.cache_write_per_mtok,
    session_id := some session, user_id := user_id, tags := tags,
    is_estimate := est, water_ml := wml }

/-- The keyword-argument set accepted by `StorageBackend.query` (a `none`
field means the filter is not supplied). -/
structure QueryFilter where
  provider : Option String := none
  model : Option String := none
  user_id : Option String := none
  session_id : Option String := none
  since : Option PyDateTime := none
  until' : Option PyDateTime := none
  tags : Option (List (String × String)) := none
deriving Repr

/-- The conjunction of all supplied query filters, applied to one record:
equality filters, inclusive `since`/`until` bounds, and tag subset
matching (`r.tags.get(k) == v` for every supplied pair). -/
def matchesFilter (f : QueryFilter) (r : UsageRecord) : Bool :=
  (match f.provider with | none => true | some p => r.provider == p)
  && (match f.model with | none => true | some m => r.model == m)
  && (match f.user_id with | none => true | some u => r.user_id == some u)
  && (match f.session_id with | none => true | some s => r.session_id == some s)
  && (match f.since with | none => true | some s => PyDateTime.ble s r.timestamp)
  && (match f.until' with | none => true | some u => PyDateTime.ble r.timestamp u)
  && (match f.tags with
      | none => true
      | some ts => ts.all (fun kv => r.tags.lookup kv.1 == some kv.2))

/-- Embeds `MemoryStorage.query`: the snapshot list is narrowed by one
list comprehension per supplied filter, in source order; no reordering is
performed. -/
def memoryQuery (db : List UsageRecord) (f : QueryFilter) : List UsageRecord :=
  let results := db
  let results := match f.provider with
    | none => results
    | some p => results.filter (fun r => r.provider == p)
  let results := match f.model with
    | none => results
    | some m => results.filter (fun r => r.model == m)
  let results := match f.user_id with
    | none => results
    | some u => results.filter (fun r => r.user_id == some u)
  let results := match f.session_id with
    | none => results
    | some s => results.filter (fun r => r.session_id == some s)
  let results := match f.since with
    | none => results
    | some s => results.filter (fun r => PyDateTime.ble s r.timestamp)
  let results := match f.until' with
    | none => results
    | some u => results.filter (fun r => PyDateTime.ble r.timestamp u)
  let results := match f.tags with
    | none => results
    | some ts =>
        results.filter (fun r => ts.all (fun kv => r.tags.lookup kv.1 == some kv.2))
  results

/-- Embeds `MemoryStorage.save`: append under the lock. -/
def memorySave (db : List UsageRecord) (r : UsageRecord) : List UsageRecord :=
  db ++ [r]

/-- Embeds `UsageTracker.get_total`: decimal sum of `total_cost` over the
queried records (`sum(..., Decimal("0"))`). -/
def UsageTracker.get_total (db : List UsageRecord) (f : QueryFilter) : ℚ :=
  (memoryQuery db f).foldl (fun acc r => acc + r.total_cost) 0

/-- The JSON object written per line by `json_file._record_to_dict`
(fields in source order). The ISO-8601 timestamp and decimal-as-string
cost round-trips are exact by design, so serialized values are identified
with their typed counterparts; `water_ml` is not serialized (the
snapshot's storage modules do not write it). -/
structure StoredDict where
  id : String
  timestamp : PyDateTime
  provider : String
  model : String
  input_tokens : ℤ
  output_tokens : ℤ
  cache_read_tokens : ℤ
  cache_write_tokens : ℤ
  input_cost : ℚ
  output_cost : ℚ
  total_cost : ℚ
  session_id : Option String
  user_id : Option String
  tags : List (String × String)
  is_estimate : Bool
deriving DecidableEq, Repr

/-- Embeds `json_file._record_to_dict`. -/
def record_to_dict (r : UsageRecord) : StoredDict :=
  { id := r.id, timestamp := r.timestamp, provider := r.provider,
    model := r.model, input_tokens := r.input_tokens,
    output_tokens := r.output_tokens,
    cache_read_tokens := r.cache_read_tokens,
    cache_write_tokens := r.cache_write_tokens,
    input_cost := r.input_cost, output_cost := r.output_cost,
    total_cost := r.total_cost, session_id := r.session_id,
    user_id := r.user_id, tags := r.tags, is_estimate := r.is_estimate }

/-- Embeds `json_file._dict_to_record` (absent keys get their defaults;
`water_ml` is never present, so it takes the default 0). -/
def dict_to_record (d : StoredDict) : UsageRecord :=
  { id := d.id, timestamp := d.timestamp, provider := d.provider,
    model := d.model, input_tokens := d.input_tokens,
    output_tokens := d.output_tokens,
    cache_read_tokens := d.cache_read_tokens,
    cache_write_tokens := d.cache_write_tokens,
    input_cost := d.input_cost, output_cost := d.output_cost,
    total_cost := d.total_cost, session_id := d.session_id,
    user_id := d.user_id, tags := d.tags, is_estimate := d.is_estimate }

/-- Embeds `JsonFileStorage.save`: append one serialized line. -/
def jsonSave (file : List StoredDict) (r : UsageRecord) : List StoredDict :=
  file ++ [record_to_dict r]

/-- Embeds `JsonFileStorage.query`: re-read every line, then apply the
same per-filter list comprehensions as `MemoryStorage.query` (the filter
chain is textually identical in the source, so it is embedded by reusing
`memoryQuery`). -/
def jsonQuery (file : List StoredDict) (f : QueryFilter) : List UsageRecord :=
  memoryQuery (file.map dict_to_record) f

/-- One row of the `usage_records` table: `tags` is NULL for an empty tag
dict (`json.dumps(record.tags) if record.tags else None`); `is_estimate`
is stored as an integer. -/
structure SqliteRow where
  id : String
  timestamp : PyDateTime
  provider : String
  model : String
  input_tokens : ℤ
  output_tokens : ℤ
  cache_read_tokens : ℤ
  cache_write_tokens : ℤ
  input_cost : ℚ
  output_cost : ℚ
  total_cost : ℚ
  session_id : Option String
  user_id : Option String
  tags : Option (List (String × String))
  is_estimate : ℤ
deriving DecidableEq, Repr

/-- The tuple bound by `SQLiteStorage.save`. -/
def record_to_row (r : UsageRecord) : SqliteRow :=
  { id := r.id, timestamp := r.timestamp, provider := r.provider,
    model := r.model, input_tokens := r.input_tokens,
    output_tokens := r.output_tokens,
    cache_read_tokens := r.cache_read_tokens,
    cache_write_tokens := r.cache_write_tokens,
    input_cost := r.input_cost, output_cost := r.output_cost,
    total_cost := r.total_cost, session_id := r.session_id,
    user_id := r.user_id,
    tags := match r.tags with
            | [] => none
            | ts => some ts,
    is_estimate := if r.is_estimate then 1 else 0 }

/-- Embeds `sqlite._row_to_record` (`bool(row["is_estimate"])` is false
exactly on 0; a NULL tags column yields the empty map). -/
def row_to_record (row : SqliteRow) : UsageRecord :=
  { id := row.id, timestamp := row.timestamp, provider := row.provider,
    model := row.model, input_tokens := row.input_tokens,
    output_tokens := row.output_tokens,
    cache_read_tokens := row.cache_read_tokens,
    cache_write_tokens := row.cache_write_tokens,
    input_cost := row.input_cost, output_cost := row.output_cost,
    total_cost := row.total_cost, session_id := row.session_id,
    user_id := row.user_id, tags := row.tags.getD [],
    is_estimate := row.is_estimate != 0 }

/-- Embeds `SQLiteStorage.save` (`INSERT OR REPLACE` with `id` as primary
key): any conflicting row is deleted and the new row appended with a
fresh rowid. -/
def sqliteSave (table : List SqliteRow) (r : UsageRecord) : List SqliteRow :=
  (table.filter (fun row => row.id ≠ r.id)) ++ [record_to_row r]

/-- The SQL `WHERE` conditions `SQLiteStorage.query` builds (one equality
or inclusive timestamp bound per supplied filter; `a = ?` is false on a
NULL column; `timestamp >= ?` on ISO-8601 strings coincides with
chronological order). Tags are not filtered at the SQL level. -/
def rowMatchesSql (f : QueryFilter) (row : SqliteRow) : Bool :=
  (match f.provider with | none => true | some p => row.provider == p)
  && (match f.model with | none => true | some m => row.model == m)
  && (match f.user_id with | none => true | some u => row.user_id == some u)
  && (match f.session_id with | none => true | some s => row.session_id == some s)
  && (match f.since with | none => true | some s => PyDateTime.ble s row.timestamp)
  && (match f.until' with | none => true | some u => PyDateTime.ble row.timestamp u)

/-- The first six conjuncts of `matchesFilter` (everything except tags) —
the part of the memory filter that maps onto SQL conditions. -/
def nonTagMatches (f : QueryFilter) (r : UsageRecord) : Bool :=
  (match f.provider with | none => true | some p => r.provider == p)
  && (match f.model with | none => true | some m => r.model == m)
  && (match f.user_id with | none => true | some u => r.user_id == some u)
  && (match f.session_id with | none => true | some s => r.session_id == some s)
  && (match f.since with | none => true | some s => PyDateTime.ble s r.timestamp)
  && (match f.until' with | none => true | some u => PyDateTime.ble r.timestamp u)

/-- The tags conjunct of `matchesFilter` (applied in Python after
retrieval for the SQLite backend). -/
def tagMatches (f : QueryFilter) (r : UsageRecord) : Bool :=
  match f.tags with
  | none => true
  | some ts => ts.all (fun kv => r.tags.lookup kv.1 == some kv.2)

/-- Insert into a timestamp-ordered list (helper for `ORDER BY`). -/
def insertByTs (r : UsageRecord) : List UsageRecord → List UsageRecord
  | [] => [r]
  | x :: xs =>
      if PyDateTime.ble r.timestamp x.timestamp then r :: x :: xs
      else x :: insertByTs r xs

/-- A timestamp sort modelling `ORDER BY timestamp` (SQLite guarantees
only the key order, which this realizes). -/
def sortByTs : List UsageRecord → List UsageRecord
  | [] => []
  | x :: xs => insertByTs x (sortByTs xs)

/-- Embeds `SQLiteStorage.query`: SQL `WHERE` filtering over the table in
rowid order, `ORDER BY timestamp`, row conversion, then the Python-side
tag filter. -/
def sqliteQuery (table : List SqliteRow) (f : QueryFilter) :
    List UsageRecord :=
  let records := sortByTs ((table.filter (fun row => rowMatchesSql f row)).map
    row_to_record)
  match f.tags with
  | none => records
  | some ts =>
      records.filter (fun r => ts.all (fun kv => r.tags.lookup kv.1 == some kv.2))

/-- Embeds Python's `s.startswith(pre)`. -/
def pyStartsWith (s pre : String) : Bool := leadMatch pre.data s.data

/-- Embeds Python's slicing `s[n:]`. -/
def pyDrop (s : String) (n : ℕ) : String := String.mk (s.data.drop n)

/-- Embeds `datetime.date.isleap`-style leap test used by the calendar
(CPython `calendar.isleap` semantics). -/
def isLeap (y : ℕ) : Bool := (y % 4 == 0 && y % 100 != 0) || y % 400 == 0

/-- Days in a month of the proleptic Gregorian calendar. -/
def daysInMonth (y m : ℕ) : ℕ :=
  if m = 2 then (if isLeap y then 29 else 28)
  else if m = 4 ∨ m = 6 ∨ m = 9 ∨ m = 11 then 30
  else 31

/-- Cumulative days before a month in a non-leap year (CPython
`_DAYS_BEFORE_MONTH`). -/
def daysBeforeMonth (m : ℕ) : ℕ :=
  match m with
  | 1 => 0 | 2 => 31 | 3 => 59 | 4 => 90 | 5 => 120 | 6 => 151 | 7 => 181
  | 8 => 212 | 9 => 243 | 10 => 273 | 11 => 304 | _ => 334

/-- CPython `_days_before_year`. -/
def daysBeforeYear (y : ℕ) : ℕ :=
  (y - 1) * 365 + (y - 1) / 4 - (y - 1) / 100 + (y - 1) / 400

/-- CPython `date.toordinal` (`_ymd2ord`): day number in the proleptic
Gregorian calendar, with 0001-01-01 as ordinal 1. -/
def toOrdinal (d : PyDateTime) : ℕ :=
  daysBeforeYear d.year + daysBeforeMonth d.month
    + (if 2 < d.month ∧ isLeap d.year = true then 1 else 0) + d.day

/-- CPython `date.weekday`: `(toordinal + 6) % 7`, Monday = 0. -/
def weekday (d : PyDateTime) : ℕ := (toOrdinal d + 6) % 7

/-- The well-formedness invariant `datetime.datetime` maintains. -/
def Valid (d : PyDateTime) : Prop :=
  1 ≤ d.year ∧ 1 ≤ d.month ∧ d.month ≤ 12 ∧ 1 ≤ d.day
    ∧ d.day ≤ daysInMonth d.year d.month
    ∧ d.hour < 24 ∧ d.minute < 60 ∧ d.second < 60 ∧ d.microsecond < 1000000

instance (d : PyDateTime) : Decidable (Valid d) := by
  unfold Valid
  infer_instance

/-- Calendar predecessor (keeping the time of day): the day-stepping
semantics of `datetime - timedelta(days=1)`. -/
def prevDay (d : PyDateTime) : PyDateTime :=
  if 1 < d.day then { d with day := d.day - 1 }
  else if 1 < d.month then
    { d with month := d.month - 1, day := daysInMonth d.year (d.month - 1) }
  else { d with year := d.year - 1, month := 12, day := 31 }

/-- `datetime - timedelta(days=n)`: `n`-fold calendar predecessor (time
of day preserved, as CPython's ordinal-based subtraction does). -/
def subDays (d : PyDateTime) : ℕ → PyDateTime
  | 0 => d
  | n + 1 => subDays (prevDay d) n

/-- Embeds `.replace(hour=0, minute=0, second=0, microsecond=0)`. -/
def replaceMidnight (d : PyDateTime) : PyDateTime :=
  { d with hour := 0, minute := 0, second := 0, microsecond := 0 }

/-- Embeds `tokenmeter.budget._period_start` with `now` passed explicitly
(`datetime.now()` in the source): `total`/`session` give no lower bound,
`daily` the current day's midnight, `weekly` `now - timedelta(days=now.weekday())`
at midnight, `monthly` `now.replace(day=1)` at midnight; any other string
raises a `ValueError`. -/
def periodStart (period : String) (now : PyDateTime) :
    Except TmError (Option PyDateTime) :=
  if period = "total" then .ok none
  else if period = "session" then .ok none
  else if period = "daily" then .ok (some (replaceMidnight now))
  else if period = "weekly" then
    .ok (some (replaceMidnight (subDays now (weekday now))))
  else if period = "monthly" then
    .ok (some (replaceMidnight { now with day := 1 }))
  else .error (.valueError ("Unknown period: " ++ period))

/-- The store filters `BudgetManager._check_one` builds from the budget
scope and the ambient user id: `user:X` forces `user_id=X` (overriding the
ambient id), `session:X` forces `session_id=X`, any other non-global scope
adds no filter, and a global scope uses the ambient user id if given. -/
def buildFilter (scope : String) (user_id : Option String)
    (since : Option PyDateTime) : QueryFilter :=
  if scope = "global" then { since := since, user_id := user_id }
  else if pyStartsWith scope "user:" then
    { since := since, user_id := some (pyDrop scope 5) }
  else if pyStartsWith scope "session:" then
    { since := since, session_id := some (pyDrop scope 8) }
  else { since := since }

/-- Embeds `BudgetManager._check_one`: resolve the period into a `since`
bound, build scope filters, total the matching records, and derive the
status (remaining clamped at 0, utilization `spent/limit` or 0 for a zero
limit, exceeded iff `spent >= limit`). -/
def checkOne (db : List UsageRecord) (config : BudgetConfig)
    (user_id : Option String) (now : PyDateTime) :
    Except TmError BudgetStatus := do
  let since ← periodStart config.period now
  let spent := UsageTracker.get_total db (buildFilter config.scope user_id since)
  let remaining := max 0 (config.limit - spent)
  let utilization : ℚ := if 0 < config.limit then spent / config.limit else 0
  return { config := config, spent := spent, remaining := remaining,
           utilization := utilization,
           is_exceeded := config.limit ≤ spent }

/-- Embeds `BudgetManager.set_budget`: construct the config and append it;
no validation is performed here. -/
def set_budget (budgets : List BudgetConfig) (limit : ℚ)
    (period scope action : String) : List BudgetConfig × BudgetConfig :=
  let config : BudgetConfig :=
    { limit := limit, period := period, scope := scope, action := action }
  (budgets ++ [config], config)

/-- Embeds `BudgetManager.check`: one status per configured budget, in
configuration order (errors propagate). -/
def check (db : List UsageRecord) (user_id : Option String)
    (now : PyDateTime) : List BudgetConfig → Except TmError (List BudgetStatus)
  | [] => .ok []
  | b :: rest => do
      let st ← checkOne db b user_id now
      let sts ← check db user_id now rest
      return st :: sts

/-- Embeds `BudgetManager.would_exceed`: true as soon as some budget's
current spend plus the estimated cost strictly exceeds its limit. -/
def would_exceed (db : List UsageRecord) (cost : ℚ) (user_id : Option String)
    (now : PyDateTime) : List BudgetConfig → Except TmError Bool
  | [] => .ok false
  | b :: rest => do
      let status ← checkOne db b user_id now
      if b.limit < status.spent + cost then .ok true
      else would_exceed db cost user_id now rest

/-- Embeds `BudgetManager.enforce`: over budgets whose action is
`"block"`, in configuration order, raise `BudgetExceededError` carrying
the offending status on the first strict violation. -/
def enforce (db : List UsageRecord) (cost : ℚ) (user_id : Option String)
    (now : PyDateTime) : List BudgetConfig → Except TmError Unit
  | [] => .ok ()
  | b :: rest =>
      if b.action ≠ "block" then enforce db cost user_id now rest
      else do
        let status ← checkOne db b user_id now
        if b.limit < status.spent + cost then .error (.budgetExceeded status)
        else enforce db cost user_id now rest

/-- Embeds `tokenmeter._types.AlertThreshold`. -/
structure AlertThreshold where
  percentage : ℚ
  message : Option String := none
  triggered : Bool := false
deriving DecidableEq, Repr

/-- Embeds `tokenmeter.alerts._default_message`. The source renders
`int(percentage * 100)` and the decimal amounts with Python string
formatting; the rendering is modelled with `toString`, carrying the same
data (limit, period, scope, percentage, spent, remaining). -/
def defaultMessage (status : BudgetStatus) (t : AlertThreshold) : String :=
  "Budget alert: " ++ toString (t.percentage * 100) ++ "% of $"
    ++ toString status.config.limit ++ " (" ++ status.config.period ++ " "
    ++ status.config.scope ++ ") used. Spent: $" ++ toString status.spent
    ++ ", Remaining: $" ++ toString status.remaining

/-- The inner loop of `AlertManager.check_and_notify` for one
`BudgetStatus`: walk the threshold list in order; skip triggered ones;
on `utilization >= percentage` mark triggered and emit the message. The
emitted list pairs each message with its threshold's percentage (the
source returns the plain strings — see `checkAndNotifyMessages`);
callback invocation and the stderr fallback are I/O effects outside the
embedding. -/
def processStatus (status : BudgetStatus) :
    List AlertThreshold → List AlertThreshold × List (ℚ × String)
  | [] => ([], [])
  | t :: ts =>
      if t.triggered then
        let rest := processStatus status ts
        (t :: rest.1, rest.2)
      else if status.utilization ≥ t.percentage then
        let rest := processStatus status ts
        ({ t with triggered := true } :: rest.1,
         (t.percentage, (t.message).getD (defaultMessage status t)) :: rest.2)
      else
        let rest := processStatus status ts
        (t :: rest.1, rest.2)

/-- Embeds `AlertManager.check_and_notify`, parameterized by the status
list the budget manager returns: outer loop over budgets in configuration
order, inner loop over the (mutated-in-place) threshold list. Returns the
final threshold states and the fired (percentage, message) pairs. -/
def checkAndNotify : List AlertThreshold → List BudgetStatus →
    List AlertThreshold × List (ℚ × String)
  | ts, [] => (ts, [])
  | ts, s :: rest =>
      let p := processStatus s ts
      let q := checkAndNotify p.1 rest
      (q.1, p.2 ++ q.2)

/-- The exact return value of the source's `check_and_notify`: the list
of fired messages. -/
def checkAndNotifyMessages (ts : List AlertThreshold)
    (statuses : List BudgetStatus) : List String :=
  (checkAndNotify ts statuses).2.map Prod.snd

/-- Embeds `AlertManager.reset`: clear every `triggered` flag. -/
def resetAlerts (ts : List AlertThreshold) : List AlertThreshold :=
  ts.map (fun t => { t with triggered := false })

/-- Embeds `AlertManager.set_thresholds`: replace the list with freshly
armed thresholds over the ascending-sorted percentages (`sorted(...)`
modelled by the stable `insertionSort`). -/
def set_thresholds (ps : List ℚ) : List AlertThreshold :=
  (ps.insertionSort (· ≤ ·)).map
    (fun p => { percentage := p, message := none, triggered := false })

/-- One threshold's state transition under one status (specification
helper): fire exactly when not yet triggered and the utilization reaches
the percentage. -/
def stepT (s : BudgetStatus) (t : AlertThreshold) : AlertThreshold :=
  if !t.triggered && decide (s.utilization ≥ t.percentage) then
    { t with triggered := true }
  else t

/-- A threshold's state after a whole `check_and_notify` pass
(specification helper). -/
def foldSt (sts : List BudgetStatus) (t : AlertThreshold) : AlertThreshold :=
  sts.foldl (fun t s => stepT s t) t

/-- Ascending armed thresholds 1, 2, 3, 4 for witnesses. -/
def tsW : List AlertThreshold :=
  [{ percentage := 1 }, { percentage := 2 }, { percentage := 3 },
   { percentage := 4 }]

/-- Toy response type standing in for an external provider library
object, used to instantiate witnesses. -/
structure FakeResponse where
  model : String
  input_tokens : ℤ
  output_tokens : ℤ

/-- A provider adapter over `FakeResponse` that always matches. -/
def fakeProvider : Provider FakeResponse :=
  { name := "anthropic",
    extract_usage := fun r =>
      { input_tokens := r.input_tokens, output_tokens := r.output_tokens },
    extract_model := fun r => r.model,
    matches_response := fun _ => true }

/-- A sample wall-clock instant for witnesses. -/
def dt0 : PyDateTime := { year := 2026, month := 10, day := 12, hour := 9 }

/-- The built-in pricing entry for `claude-sonnet-4-5`, spelled out. -/
def sonnetPricing : ModelPricing :=
  { model_id := "claude-sonnet-4-5", provider := "anthropic",
    input_per_mtok := 3, output_per_mtok := 15,
    cache_read_per_mtok := some 0.30, cache_write_per_mtok := some 3.75,
    batch_input_per_mtok := some 1.50, batch_output_per_mtok := some 7.50 }

/-- A record timestamped 2026-10-12 with id `"a"`. -/
def rA : UsageRecord :=
  { id := "a", timestamp := { year := 2026, month := 10, day := 12 },
    provider := "anthropic", model := "m", input_tokens := 1,
    output_tokens := 1, input_cost := 0, output_cost := 0, total_cost := 0 }

/-- A record timestamped one day earlier with id `"b"`. -/
def rB : UsageRecord :=
  { id := "b", timestamp := { year := 2026, month := 10, day := 11 },
    provider := "anthropic", model := "m", input_tokens := 1,
    output_tokens := 1, input_cost := 0, output_cost := 0, total_cost := 0 }

/-- A second record reusing id `"a"` with a later timestamp. -/
def rA2 : UsageRecord :=
  { id := "a", timestamp := { year := 2026, month := 10, day := 13 },
    provider := "anthropic", model := "m", input_tokens := 5,
    output_tokens := 5, input_cost := 0, output_cost := 0, total_cost := 0 }

/-- A sample budget for witnesses: $1 limit, all-time, global, warn. -/
def cfgWarn1 : BudgetConfig :=
  { limit := 1, period := "total", scope := "global", action := "warn" }

/-- The status `check` computes for `cfgWarn1` over an empty store. -/
def stWarn1 : BudgetStatus :=
  { config := cfgWarn1, spent := 0, remaining := 1, utilization := 0,
    is_exceeded := false }

/-- A status with utilization 2 for witnesses. -/
def stU2 : BudgetStatus :=
  { config := cfgWarn1, spent := 2, remaining := 0, utilization := 2,
    is_exceeded := true }

/-- A custom pricing entry whose `model_id` is not in normalized form
(it contains uppercase letters), used to exercise
`PricingRegistry.register` against `PricingRegistry.get`. -/
def pCustom : ModelPricing :=
  { model_id := "My-Custom-Model", provider := "custom",
    input_per_mtok := 1, output_per_mtok := 2 }

/- ===================== Supporting lemmas ===================== -/

theorem alInsert_lookup_self {β : Type} (l : List (String × β)) (k : String) (v : β) :
    (alInsert l k v).lookup k = some v := by
  induction l with
  | nil => simp [alInsert, List.lookup]
  | cons hd tl ih =>
      obtain ⟨k', v'⟩ := hd
      by_cases h : k' = k
      · simp [alInsert, h, List.lookup]
      · have hb : (k == k') = false := beq_eq_false_iff_ne.mpr (Ne.symm h)
        simp [alInsert, h, List.lookup, hb, ih]

theorem alInsert_lookup_ne {β : Type} (l : List (String × β)) (k k' : String) (v : β)
    (h : k' ≠ k) : (alInsert l k v).lookup k' = l.lookup k' := by
  have hb : (k' == k) = false := beq_eq_false_iff_ne.mpr h
  induction l with
  | nil => simp [alInsert, List.lookup, hb]
  | cons hd tl ih =>
      obtain ⟨a, b⟩ := hd
      by_cases ha : a = k
      · subst ha
        simp [alInsert, List.lookup, hb]
      · cases hx : (k' == a) <;> simp [alInsert, ha, List.lookup, hx, ih]

theorem lookup_mem {β : Type} (l : List (String × β)) (k : String) (v : β)
    (h : l.lookup k = some v) : (k, v) ∈ l := by
  induction l with
  | nil => simp [List.lookup] at h
  | cons hd tl ih =>
      obtain ⟨a, b⟩ := hd
      rcases hx : (k == a) with _ | _
      · rw [List.lookup, hx] at h
        exact List.mem_cons_of_mem _ (ih h)
      · rw [List.lookup, hx] at h
        have hk : k = a := beq_iff_eq.mp hx
        have hv : b = v := Option.some_injective _ h
        subst hk
        subst hv
        exact List.mem_cons_self _ _

theorem except_bind_ok {ε α β : Type} (a : α) (f : α → Except ε β) :
    (Except.ok a : Except ε α) >>= f = f a := rfl

theorem tokensToCost_nonpos (t : ℤ) (pr : Option ℚ) (h : t ≤ 0) :
    tokensToCost t pr = 0 := by
  cases pr <;> simp [tokensToCost, h]

theorem tokensToCost_none (t : ℤ) : tokensToCost t none = 0 := rfl

theorem compute_eq (p : ModelPricing) (it ot crt cwt : ℤ) :
    CostCalculator.compute p it ot crt cwt
      = tokensToCost it (some p.input_per_mtok)
        + tokensToCost ot (some p.output_per_mtok)
        + tokensToCost crt p.cache_read_per_mtok
        + tokensToCost cwt p.cache_write_per_mtok := by
  simp [CostCalculator.compute]

theorem calculate_eq (R : PricingRegistry) (model : String) (p : ModelPricing)
    (it ot crt cwt : ℤ) (hget : R.get model = .ok p) :
    CostCalculator.calculate R model it ot crt cwt
      = .ok (CostCalculator.compute p it ot crt cwt) := by
  simp [CostCalculator.calculate, hget]

theorem calculate_detailed_eq (R : PricingRegistry) (model : String)
    (p : ModelPricing) (it ot crt cwt : ℤ) (hget : R.get model = .ok p) :
    CostCalculator.calculate_detailed R model it ot crt cwt
      = .ok { input_cost := tokensToCost it (some p.input_per_mtok),
              output_cost := tokensToCost ot (some p.output_per_mtok),
              cache_read_cost := tokensToCost crt p.cache_read_per_mtok,
              cache_write_cost := tokensToCost cwt p.cache_write_per_mtok,
              total_cost := tokensToCost it (some p.input_per_mtok)
                + tokensToCost ot (some p.output_per_mtok)
                + tokensToCost crt p.cache_read_per_mtok
                + tokensToCost cwt p.cache_write_per_mtok } := by
  simp [CostCalculator.calculate_detailed, hget]

set_option maxHeartbeats 2000000 in
theorem memoryQuery_eq_filter (db : List UsageRecord) (f : QueryFilter) :
    memoryQuery db f = db.filter (fun r => matchesFilter f r) := by
  obtain ⟨fp, fm, fu, fs, fsi, fut, ft⟩ := f
  cases fp <;> cases fm <;> cases fu <;> cases fs <;> cases fsi <;> cases fut
    <;> cases ft <;>
    simp [memoryQuery, matchesFilter, List.filter_filter, Bool.and_assoc,
      Bool.and_comm, Bool.and_left_comm]

theorem filter_of_filter_subsume {α : Type} (p q : α → Bool) (l : List α)
    (h : ∀ a, p a = true → q a = true) :
    (l.filter q).filter p = l.filter p := by
  induction l with
  | nil => rfl
  | cons a t ih =>
      by_cases hq : q a = true
      · by_cases hp : p a = true <;> simp [List.filter_cons, hq, hp, ih]
      · have hp : ¬ p a = true := fun hc => hq (h a hc)
        simp [List.filter_cons, hq, hp, ih]

theorem one_le_daysInMonth (y m : ℕ) : 1 ≤ daysInMonth y m := by
  unfold daysInMonth
  split
  · split <;> omega
  · split <;> omega

theorem toOrdinal_first : toOrdinal { year := 1, month := 1, day := 1 } = 1 := by
  simp [toOrdinal, daysBeforeYear, daysBeforeMonth]

set_option maxHeartbeats 2000000 in
theorem prevDay_spec (d : PyDateTime) (hv : Valid d)
    (hne : ¬(d.year = 1 ∧ d.month = 1 ∧ d.day = 1)) :
    Valid (prevDay d) ∧ toOrdinal (prevDay d) + 1 = toOrdinal d := by
  obtain ⟨y, m, day, hh, mm, ss, us⟩ := d
  simp only [Valid] at hv
  obtain ⟨hy, hm1, hm2, hd1, hd2, hhh, hmm, hss, hus⟩ := hv
  by_cases hd : 1 < day
  · simp only [prevDay, Valid, toOrdinal, hd, if_true]
    refine ⟨⟨hy, hm1, hm2, by omega, by omega, hhh, hmm, hss, hus⟩, by omega⟩
  · by_cases hm : 1 < m
    · have hday : day = 1 := by omega
      subst hday
      simp only [prevDay, Valid, toOrdinal, hd, hm, if_true, if_false]
      refine ⟨⟨hy, by omega, by omega, one_le_daysInMonth y (m - 1), le_refl _,
        hhh, hmm, hss, hus⟩, ?_⟩
      cases hl : isLeap y <;> interval_cases m <;>
        simp [daysInMonth, daysBeforeMonth, hl]
    · have hday : day = 1 := by omega
      have hmon : m = 1 := by omega
      subst hday
      subst hmon
      have hy2 : 2 ≤ y := by
        rcases Nat.lt_or_ge y 2 with h | h
        · exfalso
          apply hne
          refine ⟨?_, rfl, rfl⟩
          show y = 1
          omega
        · exact h
      simp only [prevDay, Valid, toOrdinal, hd, hm, if_false]
      constructor
      · refine ⟨by omega, by omega, by omega, by omega, ?_, hhh, hmm, hss, hus⟩
        simp [daysInMonth]
      · have h212 : (2:ℕ) < 12 := by omega
        have h21 : ¬(2:ℕ) < 1 := by omega
        simp only [daysInMonth, daysBeforeMonth, daysBeforeYear, h212, true_and,
          h21, false_and, if_false]
        cases hl : isLeap (y - 1)
        · norm_num
          simp [isLeap] at hl
          omega
        · norm_num
          simp [isLeap] at hl
          omega

theorem subDays_spec : ∀ (n : ℕ) (d : PyDateTime), Valid d → n < toOrdinal d →
    Valid (subDays d n) ∧ toOrdinal (subDays d n) + n = toOrdinal d := by
  intro n
  induction n with
  | zero => intro d hv _; exact ⟨hv, rfl⟩
  | succ k ih =>
      intro d hv hlt
      have hne : ¬(d.year = 1 ∧ d.month = 1 ∧ d.day = 1) := by
        rintro ⟨h1, h2, h3⟩
        have : toOrdinal d = 1 := by
          simp [toOrdinal, daysBeforeYear, daysBeforeMonth, h1, h2, h3]
        omega
      obtain ⟨hv', hord'⟩ := prevDay_spec d hv hne
      have hlt' : k < toOrdinal (prevDay d) := by omega
      obtain ⟨hv'', hord''⟩ := ih (prevDay d) hv' hlt'
      exact ⟨by simpa [subDays] using hv'', by simp only [subDays]; omega⟩

theorem toOrdinal_ge_366 (d : PyDateTime) (hv : Valid d) (h2 : 2 ≤ d.year) :
    366 ≤ toOrdinal d := by
  obtain ⟨hy, hm1, hm2, hd1, hd2, hb⟩ := hv
  have h4 : (d.year - 1) / 100 ≤ (d.year - 1) / 4 :=
    Nat.div_le_div_left (by omega) (by omega)
  unfold toOrdinal daysBeforeYear
  omega

theorem except_bind_err {ε α β : Type} (e : ε) (f : α → Except ε β) :
    (Except.error e : Except ε α) >>= f = .error e := rfl

theorem lexLt_eq_not_lexLe : ∀ xs ys : List ℕ, lexLt ys xs = !(lexLe xs ys) := by
  intro xs
  induction xs with
  | nil => intro ys; cases ys <;> rfl
  | cons x xs ih =>
      intro ys
      cases ys with
      | nil => rfl
      | cons y ys =>
          simp only [lexLt, lexLe]
          by_cases h : x = y
          · subst h
            simp [ih]
          · have h' : y ≠ x := Ne.symm h
            have harith : (y < x) = ¬(x < y) := propext (by omega)
            simp only [h, h', if_true, if_pos, ite_true, harith, decide_not]
            split <;> simp_all

theorem blt_eq_not_ble (a b : PyDateTime) :
    PyDateTime.blt b a = !(PyDateTime.ble a b) :=
  lexLt_eq_not_lexLe a.tuple b.tuple

theorem buildFilter_since (scope : String) (user_id : Option String)
    (s : Option PyDateTime) : (buildFilter scope user_id s).since = s := by
  unfold buildFilter
  split
  · rfl
  · split
    · rfl
    · split <;> rfl

theorem checkOne_ok (db : List UsageRecord) (config : BudgetConfig)
    (user_id : Option String) (now : PyDateTime) (since : Option PyDateTime)
    (h : periodStart config.period now = .ok since) :
    checkOne db config user_id now = .ok
      { config := config,
        spent := UsageTracker.get_total db (buildFilter config.scope user_id since),
        remaining := max 0 (config.limit
          - UsageTracker.get_total db (buildFilter config.scope user_id since)),
        utilization := if 0 < config.limit then
            UsageTracker.get_total db (buildFilter config.scope user_id since)
              / config.limit
          else 0,
        is_exceeded := config.limit
          ≤ UsageTracker.get_total db (buildFilter config.scope user_id since) } := by
  simp [checkOne, h, except_bind_ok]

theorem checkOne_err (db : List UsageRecord) (config : BudgetConfig)
    (user_id : Option String) (now : PyDateTime) (e : TmError)
    (h : periodStart config.period now = .error e) :
    checkOne db config user_id now = .error e := by
  simp [checkOne, h, except_bind_err]

theorem matchesFilter_since_true (f : QueryFilter) (r : UsageRecord)
    (s : PyDateTime) (hs : f.since = some s)
    (hm : matchesFilter f r = true) : PyDateTime.ble s r.timestamp = true := by
  unfold matchesFilter at hm
  rw [hs] at hm
  simp only [Bool.and_eq_true] at hm
  exact hm.1.1.2

theorem get_total_prefilter (db : List UsageRecord) (f : QueryFilter)
    (s : PyDateTime) (hs : f.since = some s) :
    UsageTracker.get_total
        (db.filter (fun r => PyDateTime.ble s r.timestamp)) f
      = UsageTracker.get_total db f := by
  unfold UsageTracker.get_total
  rw [memoryQuery_eq_filter, memoryQuery_eq_filter,
    filter_of_filter_subsume _ _ db
      (fun r hm => matchesFilter_since_true f r s hs hm)]

theorem dict_record_roundtrip (r : UsageRecord) (hw : r.water_ml = 0) :
    dict_to_record (record_to_dict r) = r := by
  cases r
  simp_all [record_to_dict, dict_to_record]

theorem row_record_roundtrip (r : UsageRecord) (hw : r.water_ml = 0) :
    row_to_record (record_to_row r) = r := by
  cases r with
  | mk i ts pv md it ot ic oc tc crt cwt sid uid tg est w =>
      cases tg <;> cases est <;> simp_all [record_to_row, row_to_record]

theorem foldl_memorySave (rs : List UsageRecord) :
    ∀ acc, rs.foldl memorySave acc = acc ++ rs := by
  induction rs with
  | nil => intro acc; simp
  | cons r rs ih =>
      intro acc
      simp only [List.foldl_cons, memorySave, ih]
      simp

theorem foldl_jsonSave (rs : List UsageRecord) :
    ∀ acc, rs.foldl jsonSave acc = acc ++ rs.map record_to_dict := by
  induction rs with
  | nil => intro acc; simp
  | cons r rs ih =>
      intro acc
      simp only [List.foldl_cons, jsonSave, ih]
      simp

theorem foldl_sqliteSave (rs : List UsageRecord) :
    ∀ acc : List SqliteRow,
      (∀ row ∈ acc, row.id ∉ rs.map UsageRecord.id) →
      (rs.map UsageRecord.id).Nodup →
      rs.foldl sqliteSave acc = acc ++ rs.map record_to_row := by
  induction rs with
  | nil => intro acc _ _; simp
  | cons r rs ih =>
      intro acc hdisj hnd
      simp only [List.map_cons, List.nodup_cons] at hnd
      simp only [List.foldl_cons, sqliteSave]
      have hfilter : acc.filter (fun row => row.id ≠ r.id) = acc := by
        rw [List.filter_eq_self]
        intro row hrow
        have hni := hdisj row hrow
        simp only [List.map_cons, List.mem_cons, not_or] at hni
        simp [hni.1]
      rw [hfilter, ih (acc ++ [record_to_row r]) ?_ hnd.2]
      · simp
      · intro row hrow
        rcases List.mem_append.mp hrow with hin | hone
        · have hni := hdisj row hin
          simp only [List.map_cons, List.mem_cons, not_or] at hni
          exact hni.2
        · simp only [List.mem_singleton] at hone
          subst hone
          exact hnd.1

theorem lexLe_total : ∀ xs ys : List ℕ, lexLe xs ys = true ∨ lexLe ys xs = true := by
  intro xs
  induction xs with
  | nil => intro ys; left; rfl
  | cons x xs ih =>
      intro ys
      cases ys with
      | nil => right; rfl
      | cons y ys =>
          by_cases h : x = y
          · subst h
            simp only [lexLe, ne_eq, not_true_eq_false, if_false, ite_self]
            simpa [lexLe] using ih ys
          · rcases Nat.lt_or_ge x y with hlt | hge
            · left
              simp [lexLe, h, hlt]
            · right
              have hlt : y < x := by omega
              simp [lexLe, Ne.symm h, hlt]

theorem blt_imp_ble (a b : PyDateTime) (h : PyDateTime.blt a b = true) :
    PyDateTime.ble a b = true := by
  have hnot := lexLt_eq_not_lexLe b.tuple a.tuple
  rw [PyDateTime.blt] at h
  rw [hnot] at h
  rcases lexLe_total a.tuple b.tuple with h1 | h1
  · exact h1
  · rw [PyDateTime.ble]
    simp only [Bool.not_eq_true'] at h
    rw [h] at h1
    exact absurd h1 (by simp)

theorem sortByTs_sorted_fix (l : List UsageRecord)
    (h : l.Pairwise (fun a b => PyDateTime.ble a.timestamp b.timestamp = true)) :
    sortByTs l = l := by
  induction l with
  | nil => rfl
  | cons x xs ih =>
      obtain ⟨hx, hxs⟩ := List.pairwise_cons.mp h
      rw [sortByTs, ih hxs]
      cases xs with
      | nil => rfl
      | cons y ys =>
          have hh := hx y (List.mem_cons_self y ys)
          simp [insertByTs, hh]

theorem rowMatchesSql_rtr (f : QueryFilter) :
    ((fun row => rowMatchesSql f row) ∘ record_to_row) = nonTagMatches f := rfl

theorem matchesFilter_split (f : QueryFilter) (r : UsageRecord) :
    matchesFilter f r = (nonTagMatches f r && tagMatches f r) := rfl

theorem processStatus_eq (s : BudgetStatus) (ts : List AlertThreshold) :
    processStatus s ts
      = (ts.map (stepT s),
         (ts.filter
            (fun t => !t.triggered && decide (s.utilization ≥ t.percentage))).map
           (fun t => (t.percentage, t.message.getD (defaultMessage s t)))) := by
  induction ts with
  | nil => rfl
  | cons t ts ih =>
      by_cases ht : t.triggered
      · simp [processStatus, ht, ih, stepT, List.filter_cons]
      · by_cases hc : s.utilization ≥ t.percentage
        · simp [processStatus, ht, hc, ih, stepT, List.filter_cons]
        · simp [processStatus, ht, hc, ih, stepT, List.filter_cons]

theorem stepT_percentage (s : BudgetStatus) (t : AlertThreshold) :
    (stepT s t).percentage = t.percentage := by
  unfold stepT
  split <;> rfl

theorem stepT_message (s : BudgetStatus) (t : AlertThreshold) :
    (stepT s t).message = t.message := by
  unfold stepT
  split <;> rfl

theorem stepT_triggered (s : BudgetStatus) (t : AlertThreshold) :
    (stepT s t).triggered
      = (t.triggered || decide (s.utilization ≥ t.percentage)) := by
  unfold stepT
  by_cases ht : t.triggered <;> by_cases hc : s.utilization ≥ t.percentage <;>
    simp [ht, hc]

theorem foldSt_percentage (sts : List BudgetStatus) :
    ∀ t, (foldSt sts t).percentage = t.percentage := by
  induction sts with
  | nil => intro t; rfl
  | cons s sts ih =>
      intro t
      show (foldSt sts (stepT s t)).percentage = t.percentage
      rw [ih, stepT_percentage]

theorem foldSt_message (sts : List BudgetStatus) :
    ∀ t, (foldSt sts t).message = t.message := by
  induction sts with
  | nil => intro t; rfl
  | cons s sts ih =>
      intro t
      show (foldSt sts (stepT s t)).message = t.message
      rw [ih, stepT_message]

theorem foldSt_triggered (sts : List BudgetStatus) :
    ∀ t, (foldSt sts t).triggered
      = (t.triggered
          || sts.any (fun s => decide (s.utilization ≥ t.percentage))) := by
  induction sts with
  | nil => intro t; simp [foldSt]
  | cons s sts ih =>
      intro t
      show (foldSt sts (stepT s t)).triggered = _
      rw [ih, stepT_triggered]
      simp [stepT_percentage, List.any_cons, Bool.or_assoc]

theorem checkAndNotify_state (sts : List BudgetStatus) :
    ∀ ts, (checkAndNotify ts sts).1 = ts.map (foldSt sts) := by
  induction sts with
  | nil =>
      intro ts
      show ts = ts.map (fun t => foldSt [] t)
      simp [foldSt]
  | cons s rest ih =>
      intro ts
      show (checkAndNotify (processStatus s ts).1 rest).1 = _
      rw [ih, processStatus_eq]
      simp only [List.map_map]
      rfl

theorem checkAndNotify_msgs_nil (sts : List BudgetStatus) :
    ∀ ts, (∀ t ∈ ts, ∀ s ∈ sts,
        s.utilization ≥ t.percentage → t.triggered = true) →
      (checkAndNotify ts sts).2 = [] := by
  induction sts with
  | nil => intro ts _; rfl
  | cons s rest ih =>
      intro ts h
      show ((processStatus s ts).2
        ++ (checkAndNotify (processStatus s ts).1 rest).2) = []
      rw [processStatus_eq]
      have hfilter : ts.filter
          (fun t => !t.triggered && decide (s.utilization ≥ t.percentage))
          = [] := by
        rw [List.filter_eq_nil_iff]
        intro t ht
        by_cases htr : t.triggered
        · simp [htr]
        · have : ¬(s.utilization ≥ t.percentage) := fun hc =>
            htr (h t ht s (List.mem_cons_self s rest) hc)
          simp [htr, this]
      rw [hfilter]
      simp only [List.map_nil, List.nil_append]
      apply ih
      intro t' ht' s' hs' hc
      obtain ⟨t, ht, rfl⟩ := List.mem_map.mp ht'
      rw [stepT_percentage] at hc
      rw [stepT_triggered, h t ht s' (List.mem_cons_of_mem s hs') hc,
        Bool.true_or]

theorem resetAlerts_after (sts : List BudgetStatus) (ts : List AlertThreshold) :
    resetAlerts (ts.map (foldSt sts)) = resetAlerts ts := by
  unfold resetAlerts
  rw [List.map_map]
  apply List.map_congr_left
  intro t _
  show (⟨(foldSt sts t).percentage, (foldSt sts t).message, false⟩ : AlertThreshold)
    = ⟨t.percentage, t.message, false⟩
  rw [foldSt_percentage, foldSt_message]

theorem checkOne_empty_warn1 : checkOne [] cfgWarn1 none dt0 = .ok stWarn1 := by
  rw [checkOne_ok [] cfgWarn1 none dt0 none rfl]
  have hT : UsageTracker.get_total [] (buildFilter cfgWarn1.scope none none) = 0 :=
    rfl
  rw [hT]
  simp only [cfgWarn1, stWarn1, Except.ok.injEq, BudgetStatus.mk.injEq]
  norm_num

theorem record_eq {ρ : Type} (providers : List (String × Provider ρ))
    (R : PricingRegistry) (water : Option (String → ℤ → ℤ → ℤ → ℤ → ℚ))
    (trackerSession : String) (storage : List UsageRecord) (response : ρ)
    (user_id session_id : Option String) (tags : List (String × String))
    (freshId : String) (now : PyDateTime) (prov : Provider ρ) (p : ModelPricing)
    (hdetect : detect providers response = .ok prov)
    (hget : R.get (prov.extract_model response) = .ok p) :
    UsageTracker.record providers R water trackerSession storage response
        user_id session_id tags freshId now
      = (let rec' := assemble freshId now prov.name (prov.extract_model response)
            (prov.extract_usage response).input_tokens
            (prov.extract_usage response).output_tokens
            ((prov.extract_usage response).cache_read_tokens.getD 0)
            ((prov.extract_usage response).cache_write_tokens.getD 0)
            p (pyOr session_id trackerSession) user_id tags false
            (match water with
             | none => 0
             | some w => w (prov.extract_model response)
                 (prov.extract_usage response).input_tokens
                 (prov.extract_usage response).output_tokens
                 ((prov.extract_usage response).cache_read_tokens.getD 0)
                 ((prov.extract_usage response).cache_write_tokens.getD 0)) ;
         .ok (rec', storage ++ [rec'])) := by
  simp [UsageTracker.record, hdetect, except_bind_ok,
    calculate_detailed_eq R (prov.extract_model response) p _ _ _ _ hget,
    assemble]

theorem record_manual_eq (R : PricingRegistry)
    (water : Option (String → ℤ → ℤ → ℤ → ℤ → ℚ))
    (trackerSession : String) (storage : List UsageRecord)
    (model : String) (it ot : ℤ) (provArg : Option String) (crt cwt : ℤ)
    (user_id session_id : Option String) (est : Bool)
    (tags : List (String × String)) (freshId : String) (now : PyDateTime)
    (p : ModelPricing) (hget : R.get model = .ok p) :
    UsageTracker.record_manual R water trackerSession storage model it ot
        provArg crt cwt user_id session_id est tags freshId now
      = (let rec' := assemble freshId now
            (match provArg with
             | none => inferProvider model
             | some pr => pr)
            model it ot crt cwt p (pyOr session_id trackerSession)
            user_id tags est
            (match water with
             | none => 0
             | some w => w model it ot crt cwt) ;
         .ok (rec', storage ++ [rec'])) := by
  simp [UsageTracker.record_manual, except_bind_ok,
    calculate_detailed_eq R model p _ _ _ _ hget, assemble]

/- ===================== Claim theorems ===================== -/

/-- C1: whenever provider detection succeeds and the extracted model is
priced, `UsageTracker.record` returns — and appends to the record store —
a `UsageRecord` carrying the freshly generated id, the current timestamp,
the detected provider's name, the extracted token counts, the computed
costs, `is_estimate = false`, and exactly the resource-estimate value the
configured water calculator computes on the extracted counts (0 when no
calculator is configured); `UsageTracker.record_manual` does the same
from caller-supplied counts (its default `is_estimate` being `false`). -/
theorem C1_record_assembles_and_persists {ρ : Type}
    (providers : List (String × Provider ρ)) (R : PricingRegistry)
    (water : Option (String → ℤ → ℤ → ℤ → ℤ → ℚ))
    (trackerSession : String) (storage : List UsageRecord) (response : ρ)
    (user_id session_id : Option String) (tags : List (String × String))
    (freshId : String) (now : PyDateTime) (prov : Provider ρ) (p : ModelPricing)
    (hdetect : detect providers response = .ok prov)
    (hget : R.get (prov.extract_model response) = .ok p) :
    (∃ rec : UsageRecord,
      UsageTracker.record providers R water trackerSession storage response
          user_id session_id tags freshId now = .ok (rec, storage ++ [rec])
      ∧ rec.id = freshId ∧ rec.timestamp = now ∧ rec.provider = prov.name
      ∧ rec.model = prov.extract_model response
      ∧ rec.input_tokens = (prov.extract_usage response).input_tokens
      ∧ rec.output_tokens = (prov.extract_usage response).output_tokens
      ∧ rec.cache_read_tokens = (prov.extract_usage response).cache_read_tokens.getD 0
      ∧ rec.cache_write_tokens = (prov.extract_usage response).cache_write_tokens.getD 0
      ∧ rec.input_cost = tokensToCost rec.input_tokens (some p.input_per_mtok)
      ∧ rec.output_cost = tokensToCost rec.output_tokens (some p.output_per_mtok)
      ∧ rec.total_cost = rec.input_cost + rec.output_cost
          + tokensToCost rec.cache_read_tokens p.cache_read_per_mtok
          + tokensToCost rec.cache_write_tokens p.cache_write_per_mtok
      ∧ rec.user_id = user_id ∧ rec.tags = tags
      ∧ rec.is_estimate = false
      ∧ rec.water_ml = (match water with
          | none => 0
          | some w => w (prov.extract_model response)
              (prov.extract_usage response).input_tokens
              (prov.extract_usage response).output_tokens
              ((prov.extract_usage response).cache_read_tokens.getD 0)
              ((prov.extract_usage response).cache_write_tokens.getD 0))
      ∧ (water = none → rec.water_ml = 0))
    ∧ ∀ (model2 : String) (it ot crt cwt : ℤ) (p2 : ModelPricing),
        R.get model2 = .ok p2 →
        ∃ rec : UsageRecord,
          UsageTracker.record_manual R water trackerSession storage model2 it ot
              none crt cwt user_id session_id false tags freshId now
            = .ok (rec, storage ++ [rec])
          ∧ rec.id = freshId ∧ rec.timestamp = now
          ∧ rec.provider = inferProvider model2
          ∧ rec.model = model2 ∧ rec.input_tokens = it ∧ rec.output_tokens = ot
          ∧ rec.cache_read_tokens = crt ∧ rec.cache_write_tokens = cwt
          ∧ rec.input_cost = tokensToCost it (some p2.input_per_mtok)
          ∧ rec.output_cost = tokensToCost ot (some p2.output_per_mtok)
          ∧ rec.total_cost = rec.input_cost + rec.output_cost
              + tokensToCost crt p2.cache_read_per_mtok
              + tokensToCost cwt p2.cache_write_per_mtok
          ∧ rec.is_estimate = false
          ∧ rec.water_ml = (match water with
              | none => 0
              | some w => w model2 it ot crt cwt)
          ∧ (water = none → rec.water_ml = 0) := by
  constructor
  · refine ⟨_, record_eq providers R water trackerSession storage response
      user_id session_id tags freshId now prov p hdetect hget,
      rfl, rfl, rfl, rfl, rfl, rfl, rfl, rfl, rfl, rfl, rfl, rfl, rfl, rfl, rfl, ?_⟩
    intro h
    subst h
    rfl
  · intro model2 it ot crt cwt p2 hget2
    refine ⟨_, record_manual_eq R water trackerSession storage model2 it ot
      none crt cwt user_id session_id false tags freshId now p2 hget2,
      rfl, rfl, rfl, rfl, rfl, rfl, rfl, rfl, rfl, rfl, rfl, rfl, rfl, ?_⟩
    intro h
    subst h
    rfl

/-- C1 witness: two concrete recording runs with the fake adapter on the
default registry — one without a water calculator (resource estimate 0),
one with a configured calculator whose computed value (1500 for the
token-sum calculator on 1000 + 500 tokens) the record must carry. -/
theorem C1_record_assembles_and_persists_witness :
    (match UsageTracker.record [("anthropic", fakeProvider)] defaultRegistry none
        "sess-1" [] (⟨"claude-sonnet-4-5", 1000, 500⟩ : FakeResponse)
        none none [] "id-1" dt0 with
     | .ok (r, st) =>
        r.id = "id-1" ∧ r.timestamp = dt0 ∧ r.provider = "anthropic"
          ∧ r.is_estimate = false ∧ r.water_ml = 0 ∧ st = [r]
     | .error _ => False)
    ∧ (match UsageTracker.record [("anthropic", fakeProvider)] defaultRegistry
        (some (fun _ it ot crt cwt => ((it + ot + crt + cwt : ℤ) : ℚ)))
        "sess-1" [] (⟨"claude-sonnet-4-5", 1000, 500⟩ : FakeResponse)
        none none [] "id-1" dt0 with
     | .ok (r, _) => r.water_ml = 1500
     | .error _ => False) := by
  constructor
  · obtain ⟨⟨rec, hrec, hid, hts, hprov, -, -, -, -, -, -, -, -, -, -, hest, -,
        hwat⟩, -⟩ :=
      C1_record_assembles_and_persists [("anthropic", fakeProvider)] defaultRegistry
        none "sess-1" [] (⟨"claude-sonnet-4-5", 1000, 500⟩ : FakeResponse)
        none none [] "id-1" dt0 fakeProvider
        sonnetPricing (by rfl) (by rfl)
    rw [hrec]
    exact ⟨hid, hts, hprov, hest, hwat rfl, rfl⟩
  · obtain ⟨⟨rec, hrec, -, -, -, -, -, -, -, -, -, -, -, -, -, -, hwml, -⟩, -⟩ :=
      C1_record_assembles_and_persists [("anthropic", fakeProvider)] defaultRegistry
        (some (fun _ it ot crt cwt => ((it + ot + crt + cwt : ℤ) : ℚ)))
        "sess-1" [] (⟨"claude-sonnet-4-5", 1000, 500⟩ : FakeResponse)
        none none [] "id-1" dt0 fakeProvider
        sonnetPricing (by rfl) (by rfl)
    rw [hrec]
    show rec.water_ml = 1500
    rw [hwml]
    norm_num [fakeProvider]

/-- C2 counterexample: the stored itemized cost fields of a `UsageRecord`
are only `input_cost` and `output_cost`; with 1,000,000 cache-read tokens
on `claude-sonnet-4-5` (cache-read priced at $0.30/MTok),
`record_manual` produces a record whose `total_cost` (0.30) differs from
the sum of its itemized cost fields (0). -/
theorem C2_counterexample :
    (match UsageTracker.record_manual defaultRegistry none "sess-1" []
        "claude-sonnet-4-5" 0 0 none 1000000 0 none none false [] "id-2" dt0 with
     | .ok (r, _) => r.total_cost ≠ r.input_cost + r.output_cost
     | .error _ => False) := by
  rw [record_manual_eq defaultRegistry none "sess-1" [] "claude-sonnet-4-5" 0 0
    none 1000000 0 none none false [] "id-2" dt0
    { model_id := "claude-sonnet-4-5", provider := "anthropic",
      input_per_mtok := 3, output_per_mtok := 15,
      cache_read_per_mtok := some 0.30, cache_write_per_mtok := some 3.75,
      batch_input_per_mtok := some 1.50, batch_output_per_mtok := some 7.50 }
    (by rfl)]
  simp [assemble, tokensToCost]
  norm_num

/-- C2 amended: for every record created by `record` or `record_manual`,
`total_cost` equals `input_cost + output_cost` plus the cache-read and
cache-write category costs computed by `calculate_detailed` (which are
not stored as record fields); it equals the sum of the record's stored
itemized fields exactly when those two cache costs are zero — in
particular whenever the cache token counts are non-positive or the cache
prices are unconfigured. -/
theorem C2_total_cost_decomposition {ρ : Type}
    (providers : List (String × Provider ρ)) (R : PricingRegistry)
    (water : Option (String → ℤ → ℤ → ℤ → ℤ → ℚ))
    (trackerSession : String) (storage : List UsageRecord) (response : ρ)
    (user_id session_id : Option String) (tags : List (String × String))
    (freshId : String) (now : PyDateTime) (prov : Provider ρ) (p : ModelPricing)
    (hdetect : detect providers response = .ok prov)
    (hget : R.get (prov.extract_model response) = .ok p) :
    (∀ rec rest, UsageTracker.record providers R water trackerSession storage
        response user_id session_id tags freshId now = .ok (rec, rest) →
      rec.total_cost = rec.input_cost + rec.output_cost
          + tokensToCost rec.cache_read_tokens p.cache_read_per_mtok
          + tokensToCost rec.cache_write_tokens p.cache_write_per_mtok
      ∧ (tokensToCost rec.cache_read_tokens p.cache_read_per_mtok = 0 →
         tokensToCost rec.cache_write_tokens p.cache_write_per_mtok = 0 →
         rec.total_cost = rec.input_cost + rec.output_cost))
    ∧ ∀ (model2 : String) (it ot crt cwt : ℤ) (provArg : Option String)
        (est : Bool) (p2 : ModelPricing), R.get model2 = .ok p2 →
        ∀ rec rest, UsageTracker.record_manual R water trackerSession storage
            model2 it ot provArg crt cwt user_id session_id est tags
            freshId now = .ok (rec, rest) →
          rec.total_cost = rec.input_cost + rec.output_cost
              + tokensToCost rec.cache_read_tokens p2.cache_read_per_mtok
              + tokensToCost rec.cache_write_tokens p2.cache_write_per_mtok
          ∧ (tokensToCost rec.cache_read_tokens p2.cache_read_per_mtok = 0 →
             tokensToCost rec.cache_write_tokens p2.cache_write_per_mtok = 0 →
             rec.total_cost = rec.input_cost + rec.output_cost) := by
  constructor
  · intro rec rest hrun
    rw [record_eq providers R water trackerSession storage response
      user_id session_id tags freshId now prov p hdetect hget] at hrun
    simp only [Except.ok.injEq, Prod.mk.injEq] at hrun
    obtain ⟨hA, -⟩ := hrun
    subst hA
    refine ⟨rfl, ?_⟩
    intro h1 h2
    simp only [assemble] at h1 h2 ⊢
    rw [h1, h2]
    ring
  · intro model2 it ot crt cwt provArg est p2 hget2 rec rest hrun
    rw [record_manual_eq R water trackerSession storage model2 it ot
      provArg crt cwt user_id session_id est tags freshId now p2 hget2] at hrun
    simp only [Except.ok.injEq, Prod.mk.injEq] at hrun
    obtain ⟨hA, -⟩ := hrun
    subst hA
    refine ⟨rfl, ?_⟩
    intro h1 h2
    simp only [assemble] at h1 h2 ⊢
    rw [h1, h2]
    ring

/-- C2 amended witness: a concrete `record_manual` run with zero cache
tokens, where the total is exactly the sum of the stored itemized
fields. -/
theorem C2_total_cost_decomposition_witness :
    (match UsageTracker.record_manual defaultRegistry none "sess-1" []
        "claude-sonnet-4-5" 1000 500 none 0 0 none none false [] "id-3" dt0 with
     | .ok (r, _) => r.total_cost = r.input_cost + r.output_cost
     | .error _ => False) := by
  have h2 := (C2_total_cost_decomposition [("anthropic", fakeProvider)]
    defaultRegistry none "sess-1" []
    (⟨"claude-sonnet-4-5", 1000, 500⟩ : FakeResponse) none none [] "id-3" dt0
    fakeProvider sonnetPricing (by rfl) (by rfl)).2
    "claude-sonnet-4-5" 1000 500 0 0 none false sonnetPricing (by rfl)
  have hrun := record_manual_eq defaultRegistry none "sess-1" []
    "claude-sonnet-4-5" 1000 500 none 0 0 none none false [] "id-3" dt0
    sonnetPricing (by rfl)
  rw [hrun]
  exact (h2 _ _ hrun).2 (tokensToCost_nonpos _ _ le_rfl)
    (tokensToCost_nonpos _ _ le_rfl)

/-- C3 counterexample: the boundary case is strict, not meet-or-exceed.
With one budget of limit $1, an empty store (spend 0) and estimated cost
$1, the spend-plus-cost exactly meets the limit, yet `would_exceed`
returns `false` (the code tests `spent + cost > limit`). -/
theorem C3_counterexample :
    would_exceed [] 1 none dt0 [cfgWarn1] = .ok false
    ∧ (match checkOne [] cfgWarn1 none dt0 with
       | .ok st => st.spent + 1 ≥ cfgWarn1.limit
       | .error _ => False) := by
  constructor
  · have hlt : ¬(cfgWarn1.limit < stWarn1.spent + 1) := by
      simp only [cfgWarn1, stWarn1]
      norm_num
    simp [would_exceed, checkOne_empty_warn1, except_bind_ok, hlt]
  · rw [checkOne_empty_warn1]
    show stWarn1.spent + 1 ≥ cfgWarn1.limit
    simp only [cfgWarn1, stWarn1]
    norm_num

/-- C3 amended: `would_exceed` returns true iff some configured budget's
current spend plus the estimated cost STRICTLY exceeds that budget's
limit (`spent + cost > limit`, not meet-or-exceed), and `enforce` raises
`BudgetExceededError` carrying the offending status iff some budget with
action `"block"` satisfies that strict condition, raising for the first
such budget in configuration order. -/
theorem C3_would_exceed_enforce_strict
    (db : List UsageRecord) (cost : ℚ) (user_id : Option String)
    (now : PyDateTime) (budgets : List BudgetConfig)
    (statusFn : BudgetConfig → BudgetStatus)
    (hs : ∀ b ∈ budgets, checkOne db b user_id now = .ok (statusFn b)) :
    would_exceed db cost user_id now budgets
      = .ok (budgets.any (fun b => b.limit < (statusFn b).spent + cost))
    ∧ (budgets.any (fun b => b.limit < (statusFn b).spent + cost) = true
        ↔ ∃ b ∈ budgets, (statusFn b).spent + cost > b.limit)
    ∧ enforce db cost user_id now budgets
      = (match (budgets.filter (fun b => b.action == "block")).find?
            (fun b => decide (b.limit < (statusFn b).spent + cost)) with
         | some b => .error (.budgetExceeded (statusFn b))
         | none => .ok ()) := by
  refine ⟨?_, ?_, ?_⟩
  · induction budgets with
    | nil => simp [would_exceed]
    | cons b rest ih =>
        have hb := hs b (List.mem_cons_self b rest)
        have hrest := fun b' hb' => hs b' (List.mem_cons_of_mem b hb')
        by_cases hx : b.limit < (statusFn b).spent + cost
        · simp [would_exceed, hb, except_bind_ok, hx]
        · simp [would_exceed, hb, except_bind_ok, hx, ih hrest]
  · simp [List.any_eq_true, gt_iff_lt]
  · induction budgets with
    | nil => simp [enforce, List.find?]
    | cons b rest ih =>
        have hb := hs b (List.mem_cons_self b rest)
        have hrest := fun b' hb' => hs b' (List.mem_cons_of_mem b hb')
        by_cases hact : b.action = "block"
        · by_cases hx : b.limit < (statusFn b).spent + cost
          · simp [enforce, hact, hb, except_bind_ok, hx, List.filter_cons,
              List.find?]
          · simp [enforce, hact, hb, except_bind_ok, hx, List.filter_cons,
              List.find?, ih hrest]
        · have hbe : (b.action == "block") = false := by
            simp [beq_iff_eq, hact]
          simp [enforce, hact, List.filter_cons, hbe, ih hrest]

/-- C3 witness: limit $1, empty store, estimated cost $2 strictly exceeds:
`would_exceed` is true; the budget's action is `warn`, so `enforce` does
not raise. -/
theorem C3_would_exceed_enforce_strict_witness :
    would_exceed [] 2 none dt0 [cfgWarn1] = .ok true
    ∧ enforce [] 2 none dt0 [cfgWarn1] = .ok () := by
  have h := C3_would_exceed_enforce_strict [] 2 none dt0 [cfgWarn1]
    (fun _ => stWarn1)
    (by
      intro b hb
      simp only [List.mem_singleton] at hb
      subst hb
      exact checkOne_empty_warn1)
  refine ⟨?_, ?_⟩
  · rw [h.1]
    have hx : cfgWarn1.limit < stWarn1.spent + 2 := by
      simp only [cfgWarn1, stWarn1]
      norm_num
    simp [hx]
  · rw [h.2.2]
    have hf : (cfgWarn1.action == "block") = false := by
      simp [cfgWarn1]
    simp [List.filter_cons, hf, List.find?]

/-- C4 counterexample: configuring a budget with the invalid period
`"yearly"` succeeds (the config is appended and returned; `set_budget`
performs no validation); the `ValueError` surfaces only at the first
`check`-type call. -/
theorem C4_counterexample :
    set_budget [] 10 "yearly" "global" "warn"
      = ([{ limit := 10, period := "yearly", scope := "global", action := "warn" }],
         { limit := 10, period := "yearly", scope := "global", action := "warn" })
    ∧ check [] none dt0
        [{ limit := 10, period := "yearly", scope := "global", action := "warn" }]
      = .error (.valueError "Unknown period: yearly") := by
  exact ⟨rfl, rfl⟩

/-- C4 amended: an invalid period string is NOT rejected at configuration
time — `set_budget` appends and returns the config for any string — and
the `ValueError`-class failure is deferred to the first
`check`/`would_exceed`/`enforce` call (for `enforce`, provided the budget
has action `"block"`; non-block budgets are skipped without validation). -/
theorem C4_period_validation_deferred
    (budgets : List BudgetConfig) (limit : ℚ) (period scope action : String)
    (db : List UsageRecord) (cost : ℚ) (user_id : Option String)
    (now : PyDateTime)
    (hbad : period ∉ (["session", "daily", "weekly", "monthly", "total"] :
      List String)) :
    set_budget budgets limit period scope action
      = (budgets ++ [{ limit := limit, period := period, scope := scope,
                       action := action }],
         { limit := limit, period := period, scope := scope, action := action })
    ∧ periodStart period now = .error (.valueError ("Unknown period: " ++ period))
    ∧ check db user_id now
        [{ limit := limit, period := period, scope := scope, action := action }]
      = .error (.valueError ("Unknown period: " ++ period))
    ∧ would_exceed db cost user_id now
        [{ limit := limit, period := period, scope := scope, action := action }]
      = .error (.valueError ("Unknown period: " ++ period))
    ∧ (action = "block" → enforce db cost user_id now
        [{ limit := limit, period := period, scope := scope, action := action }]
      = .error (.valueError ("Unknown period: " ++ period))) := by
  simp only [List.mem_cons, List.mem_singleton, not_or] at hbad
  obtain ⟨h1, h2, h3, h4, h5⟩ := hbad
  have hps : periodStart period now
      = .error (.valueError ("Unknown period: " ++ period)) := by
    simp [periodStart, h1, h2, h3, h4, h5]
  have hco : checkOne db
      { limit := limit, period := period, scope := scope, action := action }
      user_id now = .error (.valueError ("Unknown period: " ++ period)) :=
    checkOne_err _ _ _ _ _ hps
  refine ⟨rfl, hps, ?_, ?_, ?_⟩
  · simp [check, hco, except_bind_err]
  · simp [would_exceed, hco, except_bind_err]
  · intro ha
    subst ha
    simp [enforce, hco, except_bind_err]

/-- C4 witness: the deferred failure at the concrete period `"yearly"`. -/
theorem C4_period_validation_deferred_witness :
    set_budget [] 10 "yearly" "global" "block"
      = ([{ limit := 10, period := "yearly", scope := "global", action := "block" }],
         { limit := 10, period := "yearly", scope := "global", action := "block" })
    ∧ enforce [] 0 none dt0
        [{ limit := 10, period := "yearly", scope := "global", action := "block" }]
      = .error (.valueError "Unknown period: yearly") := by
  have h := C4_period_validation_deferred [] 10 "yearly" "global" "block"
    [] 0 none dt0 (by decide)
  exact ⟨h.1, h.2.2.2.2 rfl⟩

/-- C8: with a fixed wall-clock `now` (a valid date, year ≥ 2): the budget
period resolves to no lower bound for `total` and `session`; to midnight
(00:00:00.000000) of the current calendar day for `daily`; to the most
recent Monday at 00:00 for `weekly` (a valid Monday-midnight instant,
within the 7 days up to and including today, and the unique such
ordinal); and to the first day of the current calendar month at 00:00 for
`monthly`. Moreover `check`'s spent total (via `_check_one`) excludes
every record whose timestamp is strictly before the `since` bound:
dropping all such records leaves the status unchanged, and no such record
is in the queried set. -/
theorem C8_period_window (now : PyDateTime) (hv : Valid now)
    (hy2 : 2 ≤ now.year) (db : List UsageRecord) (config : BudgetConfig)
    (user_id : Option String) :
    periodStart "total" now = .ok none
    ∧ periodStart "session" now = .ok none
    ∧ periodStart "daily" now = .ok (some (replaceMidnight now))
    ∧ ((replaceMidnight now).year = now.year
        ∧ (replaceMidnight now).month = now.month
        ∧ (replaceMidnight now).day = now.day
        ∧ (replaceMidnight now).hour = 0 ∧ (replaceMidnight now).minute = 0
        ∧ (replaceMidnight now).second = 0
        ∧ (replaceMidnight now).microsecond = 0)
    ∧ periodStart "monthly" now = .ok (some (replaceMidnight { now with day := 1 }))
    ∧ ((replaceMidnight { now with day := 1 }).year = now.year
        ∧ (replaceMidnight { now with day := 1 }).month = now.month
        ∧ (replaceMidnight { now with day := 1 }).day = 1
        ∧ (replaceMidnight { now with day := 1 }).hour = 0)
    ∧ (∃ w : PyDateTime, periodStart "weekly" now = .ok (some w)
        ∧ w.hour = 0 ∧ w.minute = 0 ∧ w.second = 0 ∧ w.microsecond = 0
        ∧ Valid w ∧ weekday w = 0
        ∧ toOrdinal w ≤ toOrdinal now ∧ toOrdinal now < toOrdinal w + 7
        ∧ ∀ x : PyDateTime, weekday x = 0 → toOrdinal x ≤ toOrdinal now →
            toOrdinal now < toOrdinal x + 7 → toOrdinal x = toOrdinal w)
    ∧ (∀ st s, periodStart config.period now = .ok (some s) →
        checkOne db config user_id now = .ok st →
        checkOne (db.filter (fun r => PyDateTime.ble s r.timestamp)) config
            user_id now = .ok st
        ∧ check db user_id now [config] = .ok [st]
        ∧ ∀ r ∈ db, PyDateTime.blt r.timestamp s = true →
            r ∉ memoryQuery db (buildFilter config.scope user_id (some s))) := by
  refine ⟨rfl, rfl, rfl, ⟨rfl, rfl, rfl, rfl, rfl, rfl, rfl⟩, rfl,
    ⟨rfl, rfl, rfl, rfl⟩, ?_, ?_⟩
  · have hord : 366 ≤ toOrdinal now := toOrdinal_ge_366 now hv hy2
    have hwd : weekday now ≤ 6 := by
      unfold weekday
      omega
    obtain ⟨hvS, hordS⟩ := subDays_spec (weekday now) now hv (by omega)
    refine ⟨replaceMidnight (subDays now (weekday now)), rfl, rfl, rfl, rfl, rfl,
      ?_, ?_, ?_, ?_, ?_⟩
    · obtain ⟨a1, a2, a3, a4, a5, -⟩ := hvS
      simp only [Valid, replaceMidnight]
      exact ⟨a1, a2, a3, a4, a5, by omega, by omega, by omega, by omega⟩
    · have hwdef : weekday now = (toOrdinal now + 6) % 7 := rfl
      have hwdefw : weekday (replaceMidnight (subDays now (weekday now)))
          = (toOrdinal (replaceMidnight (subDays now (weekday now))) + 6) % 7 := rfl
      have hmid : toOrdinal (replaceMidnight (subDays now (weekday now)))
          = toOrdinal (subDays now (weekday now)) := rfl
      omega
    · have hmid : toOrdinal (replaceMidnight (subDays now (weekday now)))
          = toOrdinal (subDays now (weekday now)) := rfl
      omega
    · have hwdef : weekday now = (toOrdinal now + 6) % 7 := rfl
      have hmid : toOrdinal (replaceMidnight (subDays now (weekday now)))
          = toOrdinal (subDays now (weekday now)) := rfl
      omega
    · intro x hx h1 h2
      have hwdef : weekday now = (toOrdinal now + 6) % 7 := rfl
      have hxdef : weekday x = (toOrdinal x + 6) % 7 := rfl
      have hmid : toOrdinal (replaceMidnight (subDays now (weekday now)))
          = toOrdinal (subDays now (weekday now)) := rfl
      omega
  · intro st s hps hchk
    have hco := checkOne_ok db config user_id now (some s) hps
    rw [hco] at hchk
    injection hchk with hst
    subst hst
    refine ⟨?_, ?_, ?_⟩
    · rw [checkOne_ok (db.filter (fun r => PyDateTime.ble s r.timestamp)) config
        user_id now (some s) hps,
        get_total_prefilter db (buildFilter config.scope user_id (some s)) s
          (buildFilter_since config.scope user_id (some s))]
    · simp [check, hco, except_bind_ok]
    · intro r hr hblt
      rw [blt_eq_not_ble] at hblt
      intro hmem
      rw [memoryQuery_eq_filter] at hmem
      have hm := (List.mem_filter.mp hmem).2
      have hble := matchesFilter_since_true _ r s
        (buildFilter_since config.scope user_id (some s)) hm
      rw [hble] at hblt
      simp at hblt

/-- C8 witness: 2026-10-12 09:00 is a Monday; `daily` resolves to that
day's midnight and `weekly` to the same instant (the most recent Monday
00:00). -/
theorem C8_period_window_witness :
    periodStart "daily" dt0 = .ok (some { year := 2026, month := 10, day := 12 })
    ∧ periodStart "weekly" dt0
      = .ok (some { year := 2026, month := 10, day := 12 }) := by
  have h := C8_period_window dt0 (by decide) (by decide) [] cfgWarn1 none
  constructor
  · rw [h.2.2.1]
    exact rfl
  · exact rfl

/-- C5 counterexample: the backends do not return identical results for
all inputs. Saving a later-stamped record before an earlier-stamped one,
the memory and JSON-lines backends return insertion order `[rA, rB]`
(they never reorder) while SQLite's `ORDER BY timestamp` returns
`[rB, rA]`; and saving two records with the same id keeps both in the
memory backend but collapses them to one row in SQLite
(`INSERT OR REPLACE`). -/
theorem C5_counterexample :
    memoryQuery (memorySave (memorySave [] rA) rB) {} = [rA, rB]
    ∧ jsonQuery (jsonSave (jsonSave [] rA) rB) {} = [rA, rB]
    ∧ sqliteQuery (sqliteSave (sqliteSave [] rA) rB) {} = [rB, rA]
    ∧ [rA, rB] ≠ ([rB, rA] : List UsageRecord)
    ∧ memoryQuery (memorySave (memorySave [] rA) rA2) {} = [rA, rA2]
    ∧ sqliteQuery (sqliteSave (sqliteSave [] rA) rA2) {} = [rA2] := by
  refine ⟨rfl, rfl, rfl, ?_, rfl, rfl⟩
  decide

/-- C5 amended: the portability contract holds on the intended save
discipline: for any save sequence with strictly increasing timestamps and
pairwise-distinct ids (and no resource estimate, which the snapshot's
serializers do not persist), all three backends return identical query
results for every filter combination — the memory backend's insertion
order, which under the hypothesis is chronological order. -/
theorem C5_backends_agree_chronological (rs : List UsageRecord)
    (f : QueryFilter)
    (hw : ∀ r ∈ rs, r.water_ml = 0)
    (hts : rs.Pairwise
      (fun a b => PyDateTime.blt a.timestamp b.timestamp = true))
    (hid : (rs.map UsageRecord.id).Nodup) :
    jsonQuery (rs.foldl jsonSave []) f = memoryQuery (rs.foldl memorySave []) f
    ∧ sqliteQuery (rs.foldl sqliteSave []) f
      = memoryQuery (rs.foldl memorySave []) f := by
  have hmem : rs.foldl memorySave [] = rs := by
    simpa using foldl_memorySave rs []
  have hble : rs.Pairwise
      (fun a b => PyDateTime.ble a.timestamp b.timestamp = true) :=
    hts.imp (fun h => blt_imp_ble _ _ h)
  constructor
  · rw [hmem]
    unfold jsonQuery
    rw [show rs.foldl jsonSave [] = rs.map record_to_dict from by
        simpa using foldl_jsonSave rs [],
      List.map_map]
    congr 1
    rw [show rs.map (dict_to_record ∘ record_to_dict) = rs.map id from
        List.map_congr_left
          (fun r hr => dict_record_roundtrip r (hw r hr)),
      List.map_id]
  · rw [hmem]
    have hsq : rs.foldl sqliteSave [] = rs.map record_to_row := by
      simpa using foldl_sqliteSave rs [] (by simp) hid
    rw [hsq]
    unfold sqliteQuery
    rw [List.filter_map, rowMatchesSql_rtr, List.map_map]
    have hrt : (rs.filter (nonTagMatches f)).map (row_to_record ∘ record_to_row)
        = (rs.filter (nonTagMatches f)).map id :=
      List.map_congr_left
        (fun r hr => row_record_roundtrip r (hw r (List.mem_of_mem_filter hr)))
    rw [hrt, List.map_id]
    have hsorted : sortByTs (rs.filter (nonTagMatches f))
        = rs.filter (nonTagMatches f) :=
      sortByTs_sorted_fix _ (List.Pairwise.sublist (List.filter_sublist rs) hble)
    rw [hsorted, memoryQuery_eq_filter]
    cases hft : f.tags with
    | none =>
        apply List.filter_congr
        intro r _
        simp [matchesFilter_split, tagMatches, hft]
    | some ts =>
        show List.filter (fun r => ts.all fun kv => List.lookup kv.1 r.tags == some kv.2)
            (List.filter (nonTagMatches f) rs)
          = List.filter (fun r => matchesFilter f r) rs
        rw [List.filter_filter]
        apply List.filter_congr
        intro r _
        rw [matchesFilter_split]
        unfold tagMatches
        rw [hft]
        exact Bool.and_comm _ _

/-- C5 amended witness: two records saved in chronological order with
distinct ids; all three backends agree on an unfiltered query. -/
theorem C5_backends_agree_chronological_witness :
    jsonQuery ([rB, rA].foldl jsonSave []) {}
      = memoryQuery ([rB, rA].foldl memorySave []) {}
    ∧ sqliteQuery ([rB, rA].foldl sqliteSave []) {}
      = memoryQuery ([rB, rA].foldl memorySave []) {} :=
  C5_backends_agree_chronological [rB, rA] {} (by decide) (by decide) (by decide)

/-- C9: once `check_and_notify` fires a threshold, an immediately
repeated call with the same statuses fires zero new messages (the
`triggered` flag is sticky); resetting re-arms every threshold so the
same crossed condition fires again (identically to running on the
freshly-reset initial list, which for an armed list is the first run
itself); and within one pass each budget fires exactly the
not-yet-triggered thresholds its utilization reaches, in list order —
ascending percentage order whenever the threshold list is
percentage-sorted, which `set_thresholds` and the defaults guarantee and
which every pass preserves. -/
theorem C9_alert_idempotence_and_order (ts : List AlertThreshold)
    (sts : List BudgetStatus) :
    (checkAndNotify (checkAndNotify ts sts).1 sts).2 = []
    ∧ checkAndNotify (resetAlerts (checkAndNotify ts sts).1) sts
      = checkAndNotify (resetAlerts ts) sts
    ∧ ((∀ t ∈ ts, t.triggered = false) →
        (checkAndNotify (resetAlerts (checkAndNotify ts sts).1) sts).2
          = (checkAndNotify ts sts).2)
    ∧ (∀ (s : BudgetStatus) (ts' : List AlertThreshold),
        processStatus s ts'
          = (ts'.map (stepT s),
             (ts'.filter (fun t =>
                !t.triggered && decide (s.utilization ≥ t.percentage))).map
               (fun t => (t.percentage, t.message.getD (defaultMessage s t)))))
    ∧ (∀ (s₀ : BudgetStatus) (rest : List BudgetStatus),
        (checkAndNotify ts (s₀ :: rest)).2
          = (processStatus s₀ ts).2
            ++ (checkAndNotify (processStatus s₀ ts).1 rest).2)
    ∧ (∀ (s : BudgetStatus) (ts' : List AlertThreshold),
        (ts'.map AlertThreshold.percentage).Pairwise (· ≤ ·) →
        ((processStatus s ts').2.map Prod.fst).Pairwise (· ≤ ·)
        ∧ (processStatus s ts').1.map AlertThreshold.percentage
          = ts'.map AlertThreshold.percentage)
    ∧ (∀ ps : List ℚ,
        ((set_thresholds ps).map AlertThreshold.percentage).Pairwise (· ≤ ·)) := by
  refine ⟨?_, ?_, ?_, fun s ts' => processStatus_eq s ts', fun _ _ => rfl,
    ?_, ?_⟩
  · rw [checkAndNotify_state]
    apply checkAndNotify_msgs_nil
    intro t' ht' s hs hc
    obtain ⟨t, ht, rfl⟩ := List.mem_map.mp ht'
    rw [foldSt_percentage] at hc
    rw [foldSt_triggered]
    have hany : sts.any (fun s' => decide (s'.utilization ≥ t.percentage))
        = true := by
      rw [List.any_eq_true]
      exact ⟨s, hs, by simp [hc]⟩
    rw [hany, Bool.or_true]
  · rw [checkAndNotify_state, resetAlerts_after]
  · intro harm
    rw [checkAndNotify_state, resetAlerts_after]
    have : resetAlerts ts = ts := by
      unfold resetAlerts
      have : ∀ t ∈ ts, ({ t with triggered := false } : AlertThreshold) = t := by
        intro t ht
        have h := harm t ht
        cases t
        simp_all
      rw [List.map_congr_left this]
      simp
    rw [this]
  · intro s ts' hsort
    constructor
    · rw [processStatus_eq]
      simp only [List.map_map]
      have hsub : ((ts'.filter (fun t =>
          !t.triggered && decide (s.utilization ≥ t.percentage))).map
            (Prod.fst ∘ fun t =>
              (t.percentage, t.message.getD (defaultMessage s t)))).Sublist
          (ts'.map AlertThreshold.percentage) := by
        exact List.Sublist.map _ (List.filter_sublist ts')
      exact List.Pairwise.sublist hsub hsort
    · rw [processStatus_eq]
      simp only [List.map_map]
      apply List.map_congr_left
      intro t _
      exact stepT_percentage s t
  · intro ps
    unfold set_thresholds
    rw [List.map_map]
    have : (ps.insertionSort (· ≤ ·)).map
        ((AlertThreshold.percentage ∘ fun p =>
          { percentage := p, message := none, triggered := false }))
        = (ps.insertionSort (· ≤ ·)).map id :=
      List.map_congr_left (fun p _ => rfl)
    rw [this, List.map_id]
    exact List.sorted_insertionSort (· ≤ ·) ps

/-- C9 witness: four armed thresholds at 1, 2, 3, 4 and one status with
utilization 2: the first call fires exactly 1 and 2 in ascending order, a
second call fires nothing, and after `reset` the same call fires the same
messages again. -/
theorem C9_alert_idempotence_and_order_witness :
    (checkAndNotify tsW [stU2]).2.map Prod.fst = [1, 2]
    ∧ (checkAndNotify (checkAndNotify tsW [stU2]).1 [stU2]).2 = []
    ∧ (checkAndNotify (resetAlerts (checkAndNotify tsW [stU2]).1) [stU2]).2
      = (checkAndNotify tsW [stU2]).2 := by
  have h := C9_alert_idempotence_and_order tsW [stU2]
  exact ⟨rfl, h.1, h.2.2.1 (by decide)⟩

/-- C6: for any model with a pricing entry, `CostCalculator.calculate`
equals `calculate_detailed`'s `total_cost`, which is exactly the sum of
the four itemized category costs; each category is
`(tokens / 1_000_000) * price_per_mtok` in exact decimal arithmetic and
contributes exactly 0 (without raising) when its token count is zero or
negative or its price is unconfigured; hence `calculate(model, 0, 0) = 0`
for every known model, and 1000 input + 500 output tokens at $3.00/$15.00
per MTok cost exactly 0.0105. -/
theorem C6_cost_calculation_exact
    (R : PricingRegistry) (model : String) (p : ModelPricing)
    (input_tokens output_tokens cache_read_tokens cache_write_tokens : ℤ)
    (hget : R.get model = .ok p) :
    ∃ d : DetailedCosts,
      CostCalculator.calculate_detailed R model input_tokens output_tokens
          cache_read_tokens cache_write_tokens = .ok d
      ∧ CostCalculator.calculate R model input_tokens output_tokens
          cache_read_tokens cache_write_tokens = .ok d.total_cost
      ∧ d.total_cost = d.input_cost + d.output_cost + d.cache_read_cost + d.cache_write_cost
      ∧ d.input_cost = tokensToCost input_tokens (some p.input_per_mtok)
      ∧ d.output_cost = tokensToCost output_tokens (some p.output_per_mtok)
      ∧ d.cache_read_cost = tokensToCost cache_read_tokens p.cache_read_per_mtok
      ∧ d.cache_write_cost = tokensToCost cache_write_tokens p.cache_write_per_mtok
      ∧ (∀ t : ℤ, ∀ pr : Option ℚ, t ≤ 0 ∨ pr = none → tokensToCost t pr = 0)
      ∧ (∀ t : ℤ, ∀ pr : ℚ, 0 < t →
          tokensToCost t (some pr) = ((t : ℚ) / 1000000) * pr)
      ∧ CostCalculator.calculate R model 0 0 = .ok 0
      ∧ (p.input_per_mtok = 3 → p.output_per_mtok = 15 →
          CostCalculator.calculate R model 1000 500 = .ok 0.0105) := by
  refine ⟨⟨tokensToCost input_tokens (some p.input_per_mtok),
          tokensToCost output_tokens (some p.output_per_mtok),
          tokensToCost cache_read_tokens p.cache_read_per_mtok,
          tokensToCost cache_write_tokens p.cache_write_per_mtok,
          tokensToCost input_tokens (some p.input_per_mtok)
            + tokensToCost output_tokens (some p.output_per_mtok)
            + tokensToCost cache_read_tokens p.cache_read_per_mtok
            + tokensToCost cache_write_tokens p.cache_write_per_mtok⟩,
         ?_, ?_, rfl, rfl, rfl, rfl, rfl, ?_, ?_, ?_, ?_⟩
  · exact calculate_detailed_eq R model p _ _ _ _ hget
  · rw [calculate_eq R model p _ _ _ _ hget, compute_eq]
  · rintro t pr (h | h)
    · exact tokensToCost_nonpos t pr h
    · simp [h, tokensToCost_none]
  · intro t pr ht
    simp [tokensToCost, not_le.mpr ht]
  · rw [calculate_eq R model p _ _ _ _ hget, compute_eq]
    simp [tokensToCost_nonpos]
  · intro h3 h15
    rw [calculate_eq R model p _ _ _ _ hget, compute_eq,
      tokensToCost_nonpos 0 p.cache_read_per_mtok le_rfl,
      tokensToCost_nonpos 0 p.cache_write_per_mtok le_rfl]
    simp only [tokensToCost, h3, h15]
    norm_num

/-- C6 witness: a concrete run on the default registry:
`claude-sonnet-4-5` is priced at $3.00/$15.00 per MTok and the scenario
yields exactly 0.0105, and `calculate(gpt-4o, 0, 0) = 0`. -/
theorem C6_cost_calculation_exact_witness :
    CostCalculator.calculate defaultRegistry "claude-sonnet-4-5" 1000 500 = .ok 0.0105
    ∧ CostCalculator.calculate defaultRegistry "gpt-4o" 0 0 = .ok 0 := by
  constructor
  · obtain ⟨d, h⟩ := C6_cost_calculation_exact defaultRegistry "claude-sonnet-4-5"
      { model_id := "claude-sonnet-4-5", provider := "anthropic",
        input_per_mtok := 3, output_per_mtok := 15,
        cache_read_per_mtok := some 0.30, cache_write_per_mtok := some 3.75,
        batch_input_per_mtok := some 1.50, batch_output_per_mtok := some 7.50 }
      1000 500 0 0 (by rfl)
    exact h.2.2.2.2.2.2.2.2.2.2 rfl rfl
  · obtain ⟨d, h⟩ := C6_cost_calculation_exact defaultRegistry "gpt-4o"
      { model_id := "gpt-4o", provider := "openai",
        input_per_mtok := 2.50, output_per_mtok := 10,
        cache_read_per_mtok := some 1.25 }
      0 0 0 0 (by rfl)
    exact h.2.2.2.2.2.2.2.2.2.1

/-- C7: every model string whose normalized, alias-resolved form
(lowercased, whitespace-trimmed, alias lookup with identity fallback) is
absent from the catalog makes `PricingRegistry.get` — and hence
`CostCalculator.calculate` — raise `UnknownModelError`, never returning a
zero-cost or substituted result. -/
theorem C7_unknown_model_raises
    (R : PricingRegistry) (model : String)
    (habsent : R.models.lookup (R.resolve model) = none) :
    R.resolve model
      = (R.aliases.lookup (pyNormalize model)).getD (pyNormalize model)
    ∧ R.get model = .error (.unknownModel model)
    ∧ ∀ input_tokens output_tokens cache_read_tokens cache_write_tokens : ℤ,
        CostCalculator.calculate R model input_tokens output_tokens
          cache_read_tokens cache_write_tokens = .error (.unknownModel model) := by
  refine ⟨rfl, ?_, ?_⟩
  · simp [PricingRegistry.get, habsent]
  · intro it ot crt cwt
    simp [CostCalculator.calculate, PricingRegistry.get, habsent]

/-- C7 witness: a model absent from the default catalog raises. -/
theorem C7_unknown_model_raises_witness :
    defaultRegistry.get "no-such-model-xyz"
      = .error (.unknownModel "no-such-model-xyz")
    ∧ CostCalculator.calculate defaultRegistry "no-such-model-xyz" 10 20 0 0
      = .error (.unknownModel "no-such-model-xyz") := by
  obtain ⟨-, h2, h3⟩ := C7_unknown_model_raises defaultRegistry "no-such-model-xyz"
    (by decide)
  exact ⟨h2, h3 10 20 0 0⟩

/-- C10: after `register(p)` on a registry holding no other copy of `p`,
`get s` returns `p` exactly when `s` resolves (lowercase, trim, alias
lookup with identity fallback) to `p.model_id`; and because `register`
stores under `p.model_id` verbatim while `get` normalizes its argument, an
entry whose `model_id` is not in normalized form is unreachable:
`get(p.model_id)` raises `UnknownModelError` whenever the resolved form of
`p.model_id` has no entry. -/
theorem C10_register_get_normalization
    (R : PricingRegistry) (p : ModelPricing) (s : String)
    (hfresh : ∀ kv ∈ R.models, kv.2 ≠ p) :
    ((R.register p).get s = .ok p ↔ (R.register p).resolve s = p.model_id)
    ∧ (pyNormalize p.model_id ≠ p.model_id →
        (R.register p).models.lookup ((R.register p).resolve p.model_id) = none →
        (R.register p).get p.model_id = .error (.unknownModel p.model_id)) := by
  constructor
  · constructor
    · intro h
      by_contra hne
      have hres : (R.register p).resolve s = R.resolve s := rfl
      have hlk : (R.register p).models.lookup ((R.register p).resolve s)
          = R.models.lookup ((R.register p).resolve s) := by
        exact alInsert_lookup_ne R.models p.model_id _ p hne
      rw [PricingRegistry.get, hlk] at h
      rcases hmem : R.models.lookup ((R.register p).resolve s) with _ | q
      · rw [hmem] at h
        exact Except.noConfusion h
      · rw [hmem] at h
        have hq : q = p := by
          injection h
        subst hq
        exact hfresh _ (lookup_mem _ _ _ hmem) rfl
    · intro h
      rw [PricingRegistry.get, h]
      have : (R.register p).models.lookup p.model_id = some p :=
        alInsert_lookup_self R.models p.model_id p
      rw [this]
  · intro _ habsent
    simp [PricingRegistry.get, habsent]

/-- C10 witness: registering an entry whose id contains uppercase letters
on the default registry yields an entry `get` cannot return: looking it up
by its own `model_id` raises `UnknownModelError`. -/
theorem C10_register_get_normalization_witness :
    (defaultRegistry.register pCustom).get "My-Custom-Model"
      = .error (.unknownModel "My-Custom-Model") :=
  (C10_register_get_normalization defaultRegistry pCustom "My-Custom-Model"
    (by decide)).2 (by decide) (by decide)

end Tokenmeter
